import Mathlib

/-!
# Verification of the tax-compliance engine core

Shallow embedding of the calculation and analysis engine:
rate repository (`rates.py`), tax calculator (`calculator.py`),
nexus and filing scheduler (`compliance.py`), and refund analyzer
(`refund_analyzer.py`).

Python `Decimal` and `float` values are modelled as exact rationals
(`ℚ`); arithmetic on them uses the kernel-computable wrappers `qadd`,
`qsub`, `qmul`, `qdiv` below, each proved equal to the corresponding
field operation on `ℚ`.  Fallible operations (those that can raise)
return `Except String`.  Cent-quantization appears twice: `roundCent`
gives the value of a successful quantize, and `roundCentChecked`
additionally models the `InvalidOperation` that the default 28-digit
decimal context raises on oversized results; `calculateChecked` is the
calculator built on the checked rounding.  Presentation-only fields that no engine logic
reads (the `notes` string of a state profile, the `details` string of a
nexus status, `filing_frequency_threshold`) are omitted.
-/

namespace TaxEngine

/-! ## Computable rational arithmetic -/

/-- Addition on `ℚ` by cross-multiplication; equals `a + b`. -/
def qadd (a b : ℚ) : ℚ := mkRat (a.num * b.den + b.num * a.den) (a.den * b.den)

/-- Subtraction on `ℚ`; equals `a - b`. -/
def qsub (a b : ℚ) : ℚ := qadd a (-b)

/-- Multiplication on `ℚ`; equals `a * b`. -/
def qmul (a b : ℚ) : ℚ := mkRat (a.num * b.num) (a.den * b.den)

/-- Division on `ℚ`; equals `a / b` (with `a / 0 = 0`). -/
def qdiv (a b : ℚ) : ℚ := Rat.divInt (a.num * b.den) ((a.den : ℤ) * b.num)

theorem q_mkRat (n : ℤ) (d : ℕ) : (mkRat n d : ℚ) = (n : ℚ) / (d : ℚ) := by
  rw [Rat.mkRat_eq_divInt, Rat.divInt_eq_div]
  norm_cast

theorem qadd_eq (a b : ℚ) : qadd a b = a + b := by
  have ha : ((a.den : ℚ)) ≠ 0 := Nat.cast_ne_zero.2 a.den_nz
  have hb : ((b.den : ℚ)) ≠ 0 := Nat.cast_ne_zero.2 b.den_nz
  rw [qadd, q_mkRat]
  push_cast
  conv_rhs => rw [← Rat.num_div_den a, ← Rat.num_div_den b]
  field_simp

theorem qsub_eq (a b : ℚ) : qsub a b = a - b := by
  rw [qsub, qadd_eq, sub_eq_add_neg]

theorem qmul_eq (a b : ℚ) : qmul a b = a * b := by
  have ha : ((a.den : ℚ)) ≠ 0 := Nat.cast_ne_zero.2 a.den_nz
  have hb : ((b.den : ℚ)) ≠ 0 := Nat.cast_ne_zero.2 b.den_nz
  rw [qmul, q_mkRat]
  push_cast
  conv_rhs => rw [← Rat.num_div_den a, ← Rat.num_div_den b]
  rw [div_mul_div_comm]

theorem qdiv_eq (a b : ℚ) : qdiv a b = a / b := by
  rcases eq_or_ne b 0 with hb | hb
  · subst hb
    simp [qdiv, Rat.divInt_eq_div]
  · have hbnum : (b.num : ℚ) ≠ 0 := by
      simpa using Rat.num_ne_zero.2 hb
    have ha : ((a.den : ℚ)) ≠ 0 := Nat.cast_ne_zero.2 a.den_nz
    have hbd : ((b.den : ℚ)) ≠ 0 := Nat.cast_ne_zero.2 b.den_nz
    rw [qdiv, Rat.divInt_eq_div]
    push_cast
    conv_rhs => rw [← Rat.num_div_den a, ← Rat.num_div_den b]
    field_simp

instance {ε α : Type} [DecidableEq ε] [DecidableEq α] : DecidableEq (Except ε α) := fun a b =>
  match a, b with
  | .ok x, .ok y => if h : x = y then .isTrue (by rw [h]) else .isFalse (by simp [h])
  | .error x, .error y => if h : x = y then .isTrue (by rw [h]) else .isFalse (by simp [h])
  | .ok _, .error _ => .isFalse (by simp)
  | .error _, .ok _ => .isFalse (by simp)

/-- Python truthiness of an optional string: `None` and `""` are falsy. -/
def truthy : Option String → Bool
  | some s => s ≠ ""
  | none => false

/-- Round a rational to the nearest integer, ties away from zero
(`decimal.ROUND_HALF_UP`). -/
def roundHalfUpInt (x : ℚ) : ℤ :=
  if 0 ≤ x then ⌊qadd x (mkRat 1 2)⌋ else -⌊qadd (-x) (mkRat 1 2)⌋

/-- `_round_tax` / `_round`: the value of quantizing to the cent with
`ROUND_HALF_UP` when the quantize succeeds.  Under the default decimal
context, `quantize` raises `InvalidOperation` when the result needs
more than 28 significant digits; that raising behaviour is modelled by
`roundCentChecked` below and feeds the totality analysis of
`calculate`. -/
def roundCent (x : ℚ) : ℚ :=
  qdiv (roundHalfUpInt (qmul x 100) : ℚ) 100

/-! ## Calendar dates -/

/-- Calendar date as the plain `(year, month, day)` triple that
`datetime.date` stores; comparisons are lexicographic, as in Python. -/
structure Date where
  year : ℤ
  month : ℕ
  day : ℕ
deriving DecidableEq

/-- `date.__le__`: lexicographic comparison. -/
def Date.ble (a b : Date) : Bool :=
  if a.year ≠ b.year then a.year < b.year
  else if a.month ≠ b.month then a.month < b.month
  else a.day ≤ b.day

/-- `date.__lt__`: strict lexicographic comparison. -/
def Date.blt (a b : Date) : Bool :=
  Date.ble a b && a ≠ b

/-- `date(d.year + k, d.month, d.day)`: shift a date by whole years,
keeping month and day (raises in Python only for Feb 29 landing in a
non-leap year, which no claim exercises). -/
def Date.shiftYears (d : Date) (k : ℤ) : Date :=
  ⟨d.year + k, d.month, d.day⟩

def isLeapYear (y : ℤ) : Bool :=
  (y % 4 = 0 && y % 100 ≠ 0) || y % 400 = 0

def daysInMonth (y : ℤ) (m : ℕ) : ℕ :=
  if m = 2 then (if isLeapYear y then 29 else 28)
  else if m = 4 ∨ m = 6 ∨ m = 9 ∨ m = 11 then 30
  else 31

/-- `date - timedelta(days=1)`. -/
def Date.predDay (d : Date) : Date :=
  if 1 < d.day then ⟨d.year, d.month, d.day - 1⟩
  else if 1 < d.month then ⟨d.year, d.month - 1, daysInMonth d.year (d.month - 1)⟩
  else ⟨d.year - 1, 12, 31⟩

/-- Days-from-civil (proleptic Gregorian serial day number), used for
`(a - b).days` on dates. -/
def Date.toSerial (d : Date) : ℤ :=
  let y : ℤ := if d.month ≤ 2 then d.year - 1 else d.year
  let era : ℤ := (if 0 ≤ y then y else y - 399) / 400
  let yoe : ℤ := y - era * 400
  let mp : ℤ := ((d.month : ℤ) + 9) % 12
  let doy : ℤ := (153 * mp + 2) / 5 + (d.day : ℤ) - 1
  let doe : ℤ := yoe * 365 + yoe / 4 - yoe / 100 + doy
  era * 146097 + doe - 719468

/-- `(a - b).days`. -/
def Date.daysDiff (a b : Date) : ℤ :=
  a.toSerial - b.toSerial

/-- `date.isoformat()` (4-digit year, 2-digit month and day). -/
def Date.iso (d : Date) : String :=
  let ystr := toString d.year
  let ystr := String.mk (List.replicate (4 - min 4 ystr.length) (Char.ofNat 48)) ++ ystr
  ystr ++ "-" ++ (if d.month < 10 then "0" ++ toString d.month else toString d.month)
    ++ "-" ++ (if d.day < 10 then "0" ++ toString d.day else toString d.day)

/-! ## Case conversion (`str.upper`, `str.lower`, `str.strip`) -/

def strUpper (s : String) : String := String.mk (s.data.map Char.toUpper)

def strLower (s : String) : String := String.mk (s.data.map Char.toLower)

def isPyWhitespace (c : Char) : Bool :=
  c = ' ' || c.toNat = 9 || c.toNat = 10 || c.toNat = 11 || c.toNat = 12 || c.toNat = 13

def strStrip (s : String) : String :=
  String.mk (((s.data.dropWhile isPyWhitespace).reverse.dropWhile isPyWhitespace).reverse)

end TaxEngine

example : TaxEngine.roundCent (mkRat 625 20) = mkRat 125 4 := by decide
example : TaxEngine.roundCent (mkRat (-5) 1000) = mkRat (-1) 100 := by decide
example : TaxEngine.strUpper "tx" = "TX" := by decide
example : TaxEngine.strLower "Houston" = "houston" := by decide
example : TaxEngine.strStrip "  rx " = "rx" := by decide
example : TaxEngine.Date.ble ⟨2024, 1, 31⟩ ⟨2024, 2, 20⟩ = true := by decide
example : TaxEngine.Date.predDay ⟨2024, 3, 1⟩ = ⟨2024, 2, 29⟩ := by decide
example : TaxEngine.Date.daysDiff ⟨2024, 2, 20⟩ ⟨2024, 1, 31⟩ = 20 := by decide
example : TaxEngine.Date.iso ⟨2024, 1, 31⟩ = "2024-01-31" := by decide

namespace TaxEngine

/-! ## Rate repository (`rates.py`) -/

/-- `ExemptionCategory` enum. -/
inductive ExemptionCategory
  | GROCERY
  | CLOTHING
  | PRESCRIPTION_DRUG
  | MEDICAL_DEVICE
  | MANUFACTURING_EQUIPMENT
  | AGRICULTURAL
  | RESALE
  | NONPROFIT
  | GOVERNMENT
  | DIGITAL_GOODS
  | SOFTWARE_SAAS
deriving DecidableEq

/-- The `.value` string of each `ExemptionCategory` member. -/
def ExemptionCategory.value : ExemptionCategory → String
  | .GROCERY => "grocery"
  | .CLOTHING => "clothing"
  | .PRESCRIPTION_DRUG => "prescription_drug"
  | .MEDICAL_DEVICE => "medical_device"
  | .MANUFACTURING_EQUIPMENT => "manufacturing_equipment"
  | .AGRICULTURAL => "agricultural"
  | .RESALE => "resale"
  | .NONPROFIT => "nonprofit"
  | .GOVERNMENT => "government"
  | .DIGITAL_GOODS => "digital_goods"
  | .SOFTWARE_SAAS => "software_saas"

/-- A local jurisdiction tax rate overlay (`LocalRate`). -/
structure LocalRate where
  jurisdiction : String
  county : String
  rate : ℚ
  jurisdiction_type : String
deriving DecidableEq

/-- Complete tax rate profile for a single state (`StateRate`); the
presentation-only `notes` and unused `filing_frequency_threshold`
fields are omitted. -/
structure StateRate where
  state_code : String
  state_name : String
  base_rate : ℚ
  has_local_taxes : Bool
  max_local_rate : ℚ
  avg_combined_rate : ℚ
  exemptions : List ExemptionCategory
  local_rates : List LocalRate
deriving DecidableEq

/-- `_STATE_DATA`, already shaped as the `StateRate` records that
`TaxRateDatabase._load_rates` constructs from it, in insertion order. -/
def stateData : List (String × StateRate) := [
  ("AL", ⟨"AL", "Alabama", mkRat 4 100, true, mkRat 75 1000, mkRat 924 10000,
    [.PRESCRIPTION_DRUG],
    [⟨"Birmingham", "Jefferson", mkRat 4 100, "city"⟩,
      ⟨"Montgomery", "Montgomery", mkRat 35 1000, "city"⟩,
      ⟨"Mobile", "Mobile", mkRat 4 100, "city"⟩,
      ⟨"Huntsville", "Madison", mkRat 3 100, "city"⟩]⟩),
  ("AK", ⟨"AK", "Alaska", mkRat 0 10, true, mkRat 75 1000, mkRat 182 10000,
    [],
    [⟨"Juneau", "Juneau", mkRat 5 100, "city"⟩,
      ⟨"Kodiak", "Kodiak Island", mkRat 7 100, "city"⟩]⟩),
  ("AZ", ⟨"AZ", "Arizona", mkRat 56 1000, true, mkRat 58 1000, mkRat 84 1000,
    [.GROCERY, .PRESCRIPTION_DRUG],
    [⟨"Phoenix", "Maricopa", mkRat 23 1000, "city"⟩,
      ⟨"Tucson", "Pima", mkRat 26 1000, "city"⟩,
      ⟨"Scottsdale", "Maricopa", mkRat 175 10000, "city"⟩,
      ⟨"Mesa", "Maricopa", mkRat 175 10000, "city"⟩]⟩),
  ("AR", ⟨"AR", "Arkansas", mkRat 65 1000, true, mkRat 625 10000, mkRat 951 10000,
    [.PRESCRIPTION_DRUG],
    [⟨"Little Rock", "Pulaski", mkRat 3 100, "city"⟩,
      ⟨"Fort Smith", "Sebastian", mkRat 275 10000, "city"⟩]⟩),
  ("CA", ⟨"CA", "California", mkRat 725 10000, true, mkRat 375 10000, mkRat 882 10000,
    [.GROCERY, .PRESCRIPTION_DRUG],
    [⟨"Los Angeles", "Los Angeles", mkRat 25 1000, "city"⟩,
      ⟨"San Francisco", "San Francisco", mkRat 125 10000, "city"⟩,
      ⟨"San Diego", "San Diego", mkRat 75 10000, "city"⟩,
      ⟨"San Jose", "Santa Clara", mkRat 125 10000, "city"⟩,
      ⟨"Sacramento", "Sacramento", mkRat 75 10000, "city"⟩]⟩),
  ("CO", ⟨"CO", "Colorado", mkRat 29 1000, true, mkRat 83 1000, mkRat 777 10000,
    [.GROCERY, .PRESCRIPTION_DRUG],
    [⟨"Denver", "Denver", mkRat 481 10000, "city"⟩,
      ⟨"Colorado Springs", "El Paso", mkRat 31 1000, "city"⟩,
      ⟨"Aurora", "Arapahoe", mkRat 375 10000, "city"⟩]⟩),
  ("CT", ⟨"CT", "Connecticut", mkRat 635 10000, false, mkRat 0 10, mkRat 635 10000,
    [.GROCERY, .CLOTHING, .PRESCRIPTION_DRUG],
    []⟩),
  ("DE", ⟨"DE", "Delaware", mkRat 0 10, false, mkRat 0 10, mkRat 0 10,
    [],
    []⟩),
  ("FL", ⟨"FL", "Florida", mkRat 6 100, true, mkRat 25 1000, mkRat 702 10000,
    [.GROCERY, .PRESCRIPTION_DRUG, .MEDICAL_DEVICE],
    [⟨"Miami", "Miami-Dade", mkRat 1 100, "city"⟩,
      ⟨"Orlando", "Orange", mkRat 5 1000, "city"⟩,
      ⟨"Tampa", "Hillsborough", mkRat 15 1000, "city"⟩,
      ⟨"Jacksonville", "Duval", mkRat 5 1000, "city"⟩]⟩),
  ("GA", ⟨"GA", "Georgia", mkRat 4 100, true, mkRat 5 100, mkRat 735 10000,
    [.GROCERY, .PRESCRIPTION_DRUG],
    [⟨"Atlanta", "Fulton", mkRat 389 10000, "city"⟩,
      ⟨"Savannah", "Chatham", mkRat 4 100, "city"⟩]⟩),
  ("HI", ⟨"HI", "Hawaii", mkRat 4 100, true, mkRat 5 1000, mkRat 444 10000,
    [.PRESCRIPTION_DRUG],
    [⟨"Honolulu", "Honolulu", mkRat 5 1000, "city"⟩]⟩),
  ("ID", ⟨"ID", "Idaho", mkRat 6 100, true, mkRat 3 100, mkRat 602 10000,
    [.GROCERY, .PRESCRIPTION_DRUG],
    [⟨"Sun Valley", "Blaine", mkRat 3 100, "district"⟩]⟩),
  ("IL", ⟨"IL", "Illinois", mkRat 625 10000, true, mkRat 525 10000, mkRat 882 10000,
    [.GROCERY, .PRESCRIPTION_DRUG, .MEDICAL_DEVICE],
    [⟨"Chicago", "Cook", mkRat 475 10000, "city"⟩,
      ⟨"Springfield", "Sangamon", mkRat 225 10000, "city"⟩,
      ⟨"Naperville", "DuPage", mkRat 175 10000, "city"⟩]⟩),
  ("IN", ⟨"IN", "Indiana", mkRat 7 100, false, mkRat 0 10, mkRat 7 100,
    [.GROCERY, .PRESCRIPTION_DRUG],
    []⟩),
  ("IA", ⟨"IA", "Iowa", mkRat 6 100, true, mkRat 1 100, mkRat 694 10000,
    [.GROCERY, .PRESCRIPTION_DRUG],
    [⟨"Des Moines", "Polk", mkRat 1 100, "city"⟩,
      ⟨"Cedar Rapids", "Linn", mkRat 1 100, "city"⟩]⟩),
  ("KS", ⟨"KS", "Kansas", mkRat 65 1000, true, mkRat 5 100, mkRat 872 10000,
    [.PRESCRIPTION_DRUG],
    [⟨"Wichita", "Sedgwick", mkRat 225 10000, "city"⟩,
      ⟨"Topeka", "Shawnee", mkRat 215 10000, "city"⟩]⟩),
  ("KY", ⟨"KY", "Kentucky", mkRat 6 100, false, mkRat 0 10, mkRat 6 100,
    [.GROCERY, .PRESCRIPTION_DRUG],
    []⟩),
  ("LA", ⟨"LA", "Louisiana", mkRat 445 10000, true, mkRat 7 100, mkRat 955 10000,
    [.GROCERY, .PRESCRIPTION_DRUG],
    [⟨"New Orleans", "Orleans", mkRat 5 100, "city"⟩,
      ⟨"Baton Rouge", "East Baton Rouge", mkRat 5 100, "city"⟩]⟩),
  ("ME", ⟨"ME", "Maine", mkRat 55 1000, false, mkRat 0 10, mkRat 55 1000,
    [.GROCERY, .PRESCRIPTION_DRUG],
    []⟩),
  ("MD", ⟨"MD", "Maryland", mkRat 6 100, false, mkRat 0 10, mkRat 6 100,
    [.GROCERY, .CLOTHING, .PRESCRIPTION_DRUG, .MEDICAL_DEVICE],
    []⟩),
  ("MA", ⟨"MA", "Massachusetts", mkRat 625 10000, false, mkRat 0 10, mkRat 625 10000,
    [.GROCERY, .CLOTHING, .PRESCRIPTION_DRUG],
    []⟩),
  ("MI", ⟨"MI", "Michigan", mkRat 6 100, false, mkRat 0 10, mkRat 6 100,
    [.GROCERY, .PRESCRIPTION_DRUG],
    []⟩),
  ("MN", ⟨"MN", "Minnesota", mkRat 6875 100000, true, mkRat 2 100, mkRat 783 10000,
    [.GROCERY, .CLOTHING, .PRESCRIPTION_DRUG],
    [⟨"Minneapolis", "Hennepin", mkRat 2 100, "city"⟩,
      ⟨"St. Paul", "Ramsey", mkRat 175 10000, "city"⟩]⟩),
  ("MS", ⟨"MS", "Mississippi", mkRat 7 100, true, mkRat 1 100, mkRat 707 10000,
    [.PRESCRIPTION_DRUG],
    [⟨"Jackson", "Hinds", mkRat 1 100, "city"⟩]⟩),
  ("MO", ⟨"MO", "Missouri", mkRat 4225 100000, true, mkRat 588 10000, mkRat 825 10000,
    [.GROCERY, .PRESCRIPTION_DRUG],
    [⟨"St. Louis City", "St. Louis City", mkRat 49 1000, "city"⟩,
      ⟨"Kansas City", "Jackson", mkRat 4 100, "city"⟩,
      ⟨"Springfield", "Greene", mkRat 335 10000, "city"⟩]⟩),
  ("MT", ⟨"MT", "Montana", mkRat 0 10, false, mkRat 0 10, mkRat 0 10,
    [],
    []⟩),
  ("NE", ⟨"NE", "Nebraska", mkRat 55 1000, true, mkRat 2 100, mkRat 694 10000,
    [.GROCERY, .PRESCRIPTION_DRUG],
    [⟨"Omaha", "Douglas", mkRat 2 100, "city"⟩,
      ⟨"Lincoln", "Lancaster", mkRat 175 10000, "city"⟩]⟩),
  ("NV", ⟨"NV", "Nevada", mkRat 685 10000, true, mkRat 153 10000, mkRat 823 10000,
    [.GROCERY, .PRESCRIPTION_DRUG],
    [⟨"Las Vegas", "Clark", mkRat 138 10000, "city"⟩,
      ⟨"Reno", "Washoe", mkRat 98 10000, "city"⟩]⟩),
  ("NH", ⟨"NH", "New Hampshire", mkRat 0 10, false, mkRat 0 10, mkRat 0 10,
    [],
    []⟩),
  ("NJ", ⟨"NJ", "New Jersey", mkRat 6625 100000, false, mkRat 0 10, mkRat 6625 100000,
    [.GROCERY, .CLOTHING, .PRESCRIPTION_DRUG, .MEDICAL_DEVICE],
    []⟩),
  ("NM", ⟨"NM", "New Mexico", mkRat 4875 100000, true, mkRat 481 10000, mkRat 729 10000,
    [.GROCERY, .PRESCRIPTION_DRUG],
    [⟨"Albuquerque", "Bernalillo", mkRat 281 10000, "city"⟩,
      ⟨"Santa Fe", "Santa Fe", mkRat 344 10000, "city"⟩]⟩),
  ("NY", ⟨"NY", "New York", mkRat 4 100, true, mkRat 875 10000, mkRat 852 10000,
    [.GROCERY, .CLOTHING, .PRESCRIPTION_DRUG],
    [⟨"New York City", "New York", mkRat 45 1000, "city"⟩,
      ⟨"Buffalo", "Erie", mkRat 4 100, "city"⟩,
      ⟨"Albany", "Albany", mkRat 4 100, "city"⟩,
      ⟨"Syracuse", "Onondaga", mkRat 4 100, "city"⟩]⟩),
  ("NC", ⟨"NC", "North Carolina", mkRat 475 10000, true, mkRat 275 10000, mkRat 698 10000,
    [.GROCERY, .PRESCRIPTION_DRUG],
    [⟨"Charlotte", "Mecklenburg", mkRat 25 1000, "city"⟩,
      ⟨"Raleigh", "Wake", mkRat 225 10000, "city"⟩,
      ⟨"Durham", "Durham", mkRat 25 1000, "city"⟩]⟩),
  ("ND", ⟨"ND", "North Dakota", mkRat 5 100, true, mkRat 35 1000, mkRat 696 10000,
    [.GROCERY, .PRESCRIPTION_DRUG],
    [⟨"Fargo", "Cass", mkRat 25 1000, "city"⟩,
      ⟨"Bismarck", "Burleigh", mkRat 2 100, "city"⟩]⟩),
  ("OH", ⟨"OH", "Ohio", mkRat 575 10000, true, mkRat 225 10000, mkRat 724 10000,
    [.GROCERY, .PRESCRIPTION_DRUG],
    [⟨"Columbus", "Franklin", mkRat 175 10000, "city"⟩,
      ⟨"Cleveland", "Cuyahoga", mkRat 225 10000, "city"⟩,
      ⟨"Cincinnati", "Hamilton", mkRat 2 100, "city"⟩]⟩),
  ("OK", ⟨"OK", "Oklahoma", mkRat 45 1000, true, mkRat 7 100, mkRat 895 10000,
    [.PRESCRIPTION_DRUG],
    [⟨"Oklahoma City", "Oklahoma", mkRat 413 10000, "city"⟩,
      ⟨"Tulsa", "Tulsa", mkRat 467 10000, "city"⟩]⟩),
  ("OR", ⟨"OR", "Oregon", mkRat 0 10, false, mkRat 0 10, mkRat 0 10,
    [],
    []⟩),
  ("PA", ⟨"PA", "Pennsylvania", mkRat 6 100, true, mkRat 2 100, mkRat 634 10000,
    [.GROCERY, .CLOTHING, .PRESCRIPTION_DRUG],
    [⟨"Philadelphia", "Philadelphia", mkRat 2 100, "city"⟩,
      ⟨"Pittsburgh", "Allegheny", mkRat 1 100, "city"⟩]⟩),
  ("RI", ⟨"RI", "Rhode Island", mkRat 7 100, false, mkRat 0 10, mkRat 7 100,
    [.GROCERY, .CLOTHING, .PRESCRIPTION_DRUG],
    []⟩),
  ("SC", ⟨"SC", "South Carolina", mkRat 6 100, true, mkRat 3 100, mkRat 746 10000,
    [.GROCERY, .PRESCRIPTION_DRUG],
    [⟨"Charleston", "Charleston", mkRat 25 1000, "city"⟩,
      ⟨"Columbia", "Richland", mkRat 2 100, "city"⟩]⟩),
  ("SD", ⟨"SD", "South Dakota", mkRat 42 1000, true, mkRat 45 1000, mkRat 64 1000,
    [.PRESCRIPTION_DRUG],
    [⟨"Sioux Falls", "Minnehaha", mkRat 2 100, "city"⟩,
      ⟨"Rapid City", "Pennington", mkRat 2 100, "city"⟩]⟩),
  ("TN", ⟨"TN", "Tennessee", mkRat 7 100, true, mkRat 275 10000, mkRat 955 10000,
    [.PRESCRIPTION_DRUG],
    [⟨"Nashville", "Davidson", mkRat 225 10000, "city"⟩,
      ⟨"Memphis", "Shelby", mkRat 225 10000, "city"⟩,
      ⟨"Knoxville", "Knox", mkRat 225 10000, "city"⟩]⟩),
  ("TX", ⟨"TX", "Texas", mkRat 625 10000, true, mkRat 2 100, mkRat 82 1000,
    [.GROCERY, .PRESCRIPTION_DRUG, .MEDICAL_DEVICE],
    [⟨"Houston", "Harris", mkRat 2 100, "city"⟩,
      ⟨"Dallas", "Dallas", mkRat 2 100, "city"⟩,
      ⟨"Austin", "Travis", mkRat 2 100, "city"⟩,
      ⟨"San Antonio", "Bexar", mkRat 2 100, "city"⟩,
      ⟨"Fort Worth", "Tarrant", mkRat 2 100, "city"⟩]⟩),
  ("UT", ⟨"UT", "Utah", mkRat 485 10000, true, mkRat 4 100, mkRat 719 10000,
    [.PRESCRIPTION_DRUG],
    [⟨"Salt Lake City", "Salt Lake", mkRat 235 10000, "city"⟩,
      ⟨"Provo", "Utah", mkRat 225 10000, "city"⟩]⟩),
  ("VT", ⟨"VT", "Vermont", mkRat 6 100, true, mkRat 1 100, mkRat 624 10000,
    [.GROCERY, .CLOTHING, .PRESCRIPTION_DRUG],
    [⟨"Burlington", "Chittenden", mkRat 1 100, "city"⟩]⟩),
  ("VA", ⟨"VA", "Virginia", mkRat 43 1000, true, mkRat 17 1000, mkRat 575 10000,
    [.GROCERY, .PRESCRIPTION_DRUG],
    [⟨"Virginia Beach", "Virginia Beach", mkRat 17 1000, "city"⟩,
      ⟨"Richmond", "Richmond City", mkRat 17 1000, "city"⟩,
      ⟨"Norfolk", "Norfolk", mkRat 17 1000, "city"⟩]⟩),
  ("WA", ⟨"WA", "Washington", mkRat 65 1000, true, mkRat 4 100, mkRat 929 10000,
    [.GROCERY, .PRESCRIPTION_DRUG],
    [⟨"Seattle", "King", mkRat 375 10000, "city"⟩,
      ⟨"Tacoma", "Pierce", mkRat 28 1000, "city"⟩,
      ⟨"Spokane", "Spokane", mkRat 24 1000, "city"⟩]⟩),
  ("WV", ⟨"WV", "West Virginia", mkRat 6 100, true, mkRat 1 100, mkRat 652 10000,
    [.GROCERY, .PRESCRIPTION_DRUG],
    [⟨"Charleston", "Kanawha", mkRat 1 100, "city"⟩]⟩),
  ("WI", ⟨"WI", "Wisconsin", mkRat 5 100, true, mkRat 175 10000, mkRat 543 10000,
    [.GROCERY, .PRESCRIPTION_DRUG],
    [⟨"Milwaukee", "Milwaukee", mkRat 175 10000, "city"⟩,
      ⟨"Madison", "Dane", mkRat 5 1000, "city"⟩]⟩),
  ("WY", ⟨"WY", "Wyoming", mkRat 4 100, true, mkRat 4 100, mkRat 536 10000,
    [.GROCERY, .PRESCRIPTION_DRUG],
    [⟨"Cheyenne", "Laramie", mkRat 1 100, "city"⟩,
      ⟨"Casper", "Natrona", mkRat 15 1000, "city"⟩]⟩),
  ("DC", ⟨"DC", "District of Columbia", mkRat 6 100, false, mkRat 0 10, mkRat 6 100,
    [.GROCERY, .PRESCRIPTION_DRUG],
    []⟩)]

/-- `TaxRateDatabase`: the loaded, read-only state map. -/
abbrev TaxRateDatabase := List (String × StateRate)

/-- `TaxRateDatabase()` always loads the same static table. -/
def theDB : TaxRateDatabase := stateData

/-- `TaxRateDatabase.get_state`: case-insensitive lookup, explicit
not-found marker. -/
def get_state (db : TaxRateDatabase) (state_code : String) : Option StateRate :=
  db.lookup (strUpper state_code)

/-- `TaxRateDatabase.get_base_rate`: strict lookup, raises
`ValueError` (the spec’s `UnknownJurisdiction`) on an unknown code. -/
def get_base_rate (db : TaxRateDatabase) (state_code : String) : Except String ℚ :=
  match get_state db state_code with
  | none => .error ("Unknown state code: " ++ state_code)
  | some s => .ok s.base_rate

/-- `TaxRateDatabase.get_combined_rate`: strict lookup; city-specific
local rate if found, else the state average combined rate. -/
def get_combined_rate (db : TaxRateDatabase) (state_code : String)
    (city : Option String) : Except String ℚ :=
  match get_state db state_code with
  | none => .error ("Unknown state code: " ++ state_code)
  | some s =>
    if truthy city then
      match s.local_rates.find? (fun l => strLower l.jurisdiction == strLower (city.getD "")) with
      | some l => .ok (qadd s.base_rate l.rate)
      | none => .ok s.avg_combined_rate
    else .ok s.avg_combined_rate

/-- `TaxRateDatabase.get_local_rate`: case-insensitive exact match on
city name; `none` when the state or city is unknown. -/
def get_local_rate (db : TaxRateDatabase) (state_code city : String) : Option LocalRate :=
  match get_state db state_code with
  | none => none
  | some s => s.local_rates.find? (fun l => strLower l.jurisdiction == strLower city)

/-- `TaxRateDatabase.is_exempt`: strict lookup, raises on an unknown
code. -/
def is_exempt (db : TaxRateDatabase) (state_code : String)
    (category : ExemptionCategory) : Except String Bool :=
  match get_state db state_code with
  | none => .error ("Unknown state code: " ++ state_code)
  | some s => .ok (s.exemptions.contains category)

end TaxEngine

example : (TaxEngine.get_state TaxEngine.theDB "tx").isSome = true := by decide
example : (TaxEngine.get_state TaxEngine.theDB "ZZ") = none := by decide
example : (TaxEngine.get_local_rate TaxEngine.theDB "TX" "houston").map (fun l => l.rate) = some (mkRat 2 100) := by decide
example : TaxEngine.is_exempt TaxEngine.theDB "TX" .GROCERY = .ok true := by decide
example : TaxEngine.is_exempt TaxEngine.theDB "KS" .GROCERY = .ok false := by decide

namespace TaxEngine

/-! ## Tax calculator (`calculator.py`) -/

/-- `PricingModel` enum. -/
inductive PricingModel
  | TAX_EXCLUSIVE
  | TAX_INCLUSIVE
deriving DecidableEq

/-- A single taxable transaction (`Transaction`). -/
structure Transaction where
  transaction_id : String
  transaction_date : Date
  amount : ℚ
  state : String
  city : Option String := none
  item_category : Option String := none
  exemption_certificate : Option String := none
  customer_type : String := "retail"
  pricing_model : PricingModel := .TAX_EXCLUSIVE
deriving DecidableEq

/-- Result of a tax calculation for a single transaction (`TaxResult`). -/
structure TaxResult where
  transaction_id : String
  taxable_amount : ℚ
  tax_amount : ℚ
  effective_rate : ℚ
  state : String
  city : Option String
  state_tax : ℚ
  local_tax : ℚ
  is_exempt : Bool := false
  exemption_reason : String := ""
  warnings : List String := []
deriving DecidableEq

/-- Aggregated result for a batch of transactions (`BatchResult`). -/
structure BatchResult where
  results : List TaxResult
  total_taxable : ℚ
  total_tax : ℚ
  total_exempt : ℚ
  transaction_count : ℕ
  exempt_count : ℕ
  state_breakdown : List (String × ℚ)
  errors : List String
deriving DecidableEq

/-- `_CATEGORY_MAP`: item-category aliases to exemption categories. -/
def categoryMap : List (String × ExemptionCategory) := [
  ("grocery", .GROCERY),
  ("groceries", .GROCERY),
  ("food", .GROCERY),
  ("clothing", .CLOTHING),
  ("apparel", .CLOTHING),
  ("prescription", .PRESCRIPTION_DRUG),
  ("prescription_drug", .PRESCRIPTION_DRUG),
  ("rx", .PRESCRIPTION_DRUG),
  ("medical", .MEDICAL_DEVICE),
  ("medical_device", .MEDICAL_DEVICE),
  ("manufacturing", .MANUFACTURING_EQUIPMENT),
  ("agricultural", .AGRICULTURAL),
  ("resale", .RESALE),
  ("software", .SOFTWARE_SAAS),
  ("saas", .SOFTWARE_SAAS),
  ("digital", .DIGITAL_GOODS)]

/-- `TaxCalculator._resolve_exemption`: `(is_exempt, reason)`; can only
raise if the jurisdiction lookup inside `is_exempt` fails. -/
def resolveExemption (db : TaxRateDatabase) (txn : Transaction) :
    Except String (Bool × String) :=
  if txn.customer_type = "wholesale" ∨ txn.customer_type = "exempt" then
    .ok (true, "Customer type: " ++ txn.customer_type)
  else if truthy txn.exemption_certificate then
    .ok (true, "Exemption cert: " ++ (txn.exemption_certificate.getD ""))
  else if truthy txn.item_category then
    match categoryMap.lookup (strStrip (strLower (txn.item_category.getD ""))) with
    | some cat =>
      match is_exempt db txn.state cat with
      | .error e => .error e
      | .ok b =>
        if b then .ok (true, txn.state ++ " exempts " ++ cat.value)
        else .ok (false, "")
    | none => .ok (false, "")
  else .ok (false, "")

/-- Local-rate resolution inside `TaxCalculator.calculate` (lines
213-224): city-specific rate when found, else the average local
portion `max(avg_combined - base, 0)` when the state has local taxes,
else `0`. -/
def localRateFor (db : TaxRateDatabase) (state : StateRate) (txn : Transaction) : ℚ :=
  if truthy txn.city then
    match get_local_rate db txn.state (txn.city.getD "") with
    | some l => l.rate
    | none =>
      if state.has_local_taxes then max (qsub state.avg_combined_rate state.base_rate) 0 else 0
  else if state.has_local_taxes then max (qsub state.avg_combined_rate state.base_rate) 0 else 0

/-- Taxable-amount resolution inside `TaxCalculator.calculate` (lines
229-234): tax-inclusive amounts are backed out by the combined rate and
rounded to the cent. -/
def taxableFor (db : TaxRateDatabase) (state : StateRate) (txn : Transaction) : ℚ :=
  let combined_rate := qadd state.base_rate (localRateFor db state txn)
  if txn.pricing_model = .TAX_INCLUSIVE then roundCent (qdiv txn.amount (qadd 1 combined_rate))
  else txn.amount

/-- The taxed branch of `TaxCalculator.calculate` (lines 211-256). -/
def taxedResult (db : TaxRateDatabase) (state : StateRate) (txn : Transaction) : TaxResult :=
  let state_rate := state.base_rate
  let local_rate := localRateFor db state txn
  let combined_rate := qadd state_rate local_rate
  let taxable := taxableFor db state txn
  let state_tax := roundCent (qmul taxable state_rate)
  let local_tax_amt := roundCent (qmul taxable local_rate)
  let total_tax := qadd state_tax local_tax_amt
  let warnings :=
    if !truthy txn.city && state.has_local_taxes then
      ["No city specified for " ++ txn.state ++ "; used average local rate"]
    else []
  ⟨txn.transaction_id, taxable, total_tax, combined_rate, txn.state, txn.city,
    state_tax, local_tax_amt, false, "", warnings⟩

/-- `TaxCalculator.calculate`. -/
def calculate (db : TaxRateDatabase) (txn : Transaction) : Except String TaxResult :=
  match get_state db txn.state with
  | none =>
    .ok ⟨txn.transaction_id, txn.amount, 0, 0, txn.state, txn.city, 0, 0, false, "",
      ["Unknown state code: " ++ txn.state]⟩
  | some state =>
    if state.base_rate = 0 ∧ state.has_local_taxes = false then
      .ok ⟨txn.transaction_id, txn.amount, 0, 0, txn.state, txn.city, 0, 0, true,
        state.state_name ++ " has no sales tax", []⟩
    else
      match resolveExemption db txn with
      | .error e => .error e
      | .ok (isEx, reason) =>
        if isEx then
          .ok ⟨txn.transaction_id, txn.amount, 0, 0, txn.state, txn.city, 0, 0, true, reason, []⟩
        else .ok (taxedResult db state txn)

/-- `dict.get(k, 0) + v` followed by item assignment on a Python dict:
update in place when the key exists, append otherwise. -/
def dictAdd (m : List (String × ℚ)) (k : String) (v : ℚ) : List (String × ℚ) :=
  match m with
  | [] => [(k, v)]
  | (k0, v0) :: rest => if k0 = k then (k0, qadd v0 v) :: rest else (k0, v0) :: dictAdd rest k v

/-- Accumulator state of the `calculate_batch` loop. -/
structure BatchAcc where
  results : List TaxResult
  errors : List String
  total_taxable : ℚ
  total_tax : ℚ
  total_exempt : ℚ
  exempt_count : ℕ
  state_tax_totals : List (String × ℚ)

/-- One iteration of the `calculate_batch` loop: the `try` body, with
any raised error caught and recorded by transaction id. -/
def batchStep (db : TaxRateDatabase) (acc : BatchAcc) (txn : Transaction) : BatchAcc :=
  match calculate db txn with
  | .ok result =>
    { results := acc.results ++ [result]
      errors := acc.errors
      total_taxable := qadd acc.total_taxable result.taxable_amount
      total_tax := qadd acc.total_tax result.tax_amount
      total_exempt :=
        if result.is_exempt then qadd acc.total_exempt result.taxable_amount
        else acc.total_exempt
      exempt_count := if result.is_exempt then acc.exempt_count + 1 else acc.exempt_count
      state_tax_totals := dictAdd acc.state_tax_totals txn.state result.tax_amount }
  | .error e =>
    { acc with errors := acc.errors ++ ["Transaction " ++ txn.transaction_id ++ ": " ++ e] }

/-- `TaxCalculator.calculate_batch`. -/
def calculate_batch (db : TaxRateDatabase) (transactions : List Transaction) : BatchResult :=
  let acc := transactions.foldl (batchStep db) ⟨[], [], 0, 0, 0, 0, []⟩
  ⟨acc.results, acc.total_taxable, acc.total_tax, acc.total_exempt,
    transactions.length, acc.exempt_count, acc.state_tax_totals, acc.errors⟩

/-- Round half to even (banker’s rounding), used by Python string
formatting of monetary values. -/
def roundHalfEvenInt (x : ℚ) : ℤ :=
  let f := ⌊x⌋
  let r := qsub x (f : ℚ)
  if r < mkRat 1 2 then f
  else if mkRat 1 2 < r then f + 1
  else if f % 2 = 0 then f else f + 1

/-- Fixed-point rendering of a rational with the given number of
decimal places (Python `format(x, ".Nf")`). -/
def fmtFixed (q : ℚ) (places : ℕ) : String :=
  let scale : ℕ := 10 ^ places
  let n := roundHalfEvenInt (qmul q (scale : ℚ))
  let a := n.natAbs
  let frac := toString (a % scale)
  let pad := String.mk (List.replicate (places - min places frac.length) (Char.ofNat 48))
  (if n < 0 then "-" else "") ++ toString (a / scale) ++ "." ++ pad ++ frac

/-- The dummy transaction built by `calculate_use_tax`; `today` stands
for `date.today()`, which `calculate` never reads. -/
def useTaxTxn (purchase_amount : ℚ) (destination_state : String)
    (destination_city : Option String) (today : Date) : Transaction :=
  { transaction_id := "use-tax-calc"
    transaction_date := today
    amount := purchase_amount
    state := destination_state
    city := destination_city }

/-- `TaxCalculator.calculate_use_tax`. -/
def calculate_use_tax (db : TaxRateDatabase) (purchase_amount : ℚ)
    (destination_state : String) (destination_city : Option String)
    (tax_already_paid : ℚ) (today : Date) : Except String TaxResult :=
  match calculate db (useTaxTxn purchase_amount destination_state destination_city today) with
  | .error e => .error e
  | .ok result =>
    let credit := min tax_already_paid result.tax_amount
    let net_use_tax := qsub result.tax_amount credit
    .ok ⟨"use-tax-calc", purchase_amount, roundCent net_use_tax, result.effective_rate,
      destination_state, destination_city, result.state_tax, result.local_tax, false, "",
      if 0 < credit then ["Credit applied for $" ++ fmtFixed credit 2 ++ " tax already paid"]
      else []⟩

end TaxEngine

namespace TaxEngine

/-! ## Nexus and filing scheduler (`compliance.py`) -/

/-- `FilingFrequency` enum. -/
inductive FilingFrequency
  | MONTHLY
  | QUARTERLY
  | SEMI_ANNUAL
  | ANNUAL
deriving DecidableEq

/-- `NexusType` enum. -/
inductive NexusType
  | PHYSICAL
  | ECONOMIC
  | CLICK_THROUGH
  | MARKETPLACE
deriving DecidableEq

/-- Economic nexus threshold for a state (`NexusThreshold`). -/
structure NexusThreshold where
  state_code : String
  revenue_threshold : ℚ
  transaction_threshold : Option ℕ
  measurement_period : String
deriving DecidableEq

/-- Result of a nexus analysis for a single state (`NexusStatus`); the
presentation-only `details` string is omitted. -/
structure NexusStatus where
  state_code : String
  has_nexus : Bool
  nexus_types : List NexusType
  revenue_in_state : ℚ
  transactions_in_state : ℕ
  revenue_threshold : ℚ
  transaction_threshold : Option ℕ
  revenue_pct_of_threshold : ℚ
  transaction_pct_of_threshold : Option ℚ
  approaching_threshold : Bool
deriving DecidableEq

/-- A filing deadline for a specific state and period
(`FilingDeadline`). -/
structure FilingDeadline where
  state_code : String
  period_start : Date
  period_end : Date
  due_date : Date
  frequency : FilingFrequency
  is_overdue : Bool
  days_until_due : ℤ
  estimated_liability : ℚ
  status : String
deriving DecidableEq

/-- `_NEXUS_THRESHOLDS`, already shaped as the `NexusThreshold` records
built by `ComplianceChecker._load_thresholds`. -/
def nexusThresholds : List (String × NexusThreshold) := [
  ("AL", ⟨"AL", 250000, none, "prior_year"⟩),
  ("AK", ⟨"AK", 100000, some 200, "current_year"⟩),
  ("AZ", ⟨"AZ", 100000, none, "prior_year"⟩),
  ("AR", ⟨"AR", 100000, some 200, "current_or_prior"⟩),
  ("CA", ⟨"CA", 500000, none, "current_or_prior"⟩),
  ("CO", ⟨"CO", 100000, none, "prior_year"⟩),
  ("CT", ⟨"CT", 100000, some 200, "rolling_12"⟩),
  ("FL", ⟨"FL", 100000, none, "prior_year"⟩),
  ("GA", ⟨"GA", 100000, some 200, "current_or_prior"⟩),
  ("HI", ⟨"HI", 100000, some 200, "current_year"⟩),
  ("ID", ⟨"ID", 100000, none, "current_year"⟩),
  ("IL", ⟨"IL", 100000, some 200, "rolling_12"⟩),
  ("IN", ⟨"IN", 100000, some 200, "current_year"⟩),
  ("IA", ⟨"IA", 100000, none, "current_or_prior"⟩),
  ("KS", ⟨"KS", 100000, none, "current_year"⟩),
  ("KY", ⟨"KY", 100000, some 200, "current_or_prior"⟩),
  ("LA", ⟨"LA", 100000, some 200, "current_or_prior"⟩),
  ("ME", ⟨"ME", 100000, some 200, "current_or_prior"⟩),
  ("MD", ⟨"MD", 100000, some 200, "current_or_prior"⟩),
  ("MA", ⟨"MA", 100000, none, "current_or_prior"⟩),
  ("MI", ⟨"MI", 100000, some 200, "current_or_prior"⟩),
  ("MN", ⟨"MN", 100000, some 10, "rolling_12"⟩),
  ("MS", ⟨"MS", 250000, none, "rolling_12"⟩),
  ("MO", ⟨"MO", 100000, none, "prior_year"⟩),
  ("NE", ⟨"NE", 100000, some 200, "current_or_prior"⟩),
  ("NV", ⟨"NV", 100000, some 200, "current_or_prior"⟩),
  ("NJ", ⟨"NJ", 100000, some 200, "current_or_prior"⟩),
  ("NM", ⟨"NM", 100000, none, "current_year"⟩),
  ("NY", ⟨"NY", 500000, some 100, "rolling_4q"⟩),
  ("NC", ⟨"NC", 100000, some 200, "current_or_prior"⟩),
  ("ND", ⟨"ND", 100000, none, "current_or_prior"⟩),
  ("OH", ⟨"OH", 100000, some 200, "current_or_prior"⟩),
  ("OK", ⟨"OK", 100000, none, "current_or_prior"⟩),
  ("PA", ⟨"PA", 100000, none, "current_year"⟩),
  ("RI", ⟨"RI", 100000, some 200, "current_or_prior"⟩),
  ("SC", ⟨"SC", 100000, none, "current_or_prior"⟩),
  ("SD", ⟨"SD", 100000, some 200, "current_or_prior"⟩),
  ("TN", ⟨"TN", 100000, none, "rolling_12"⟩),
  ("TX", ⟨"TX", 500000, none, "rolling_12"⟩),
  ("UT", ⟨"UT", 100000, some 200, "current_or_prior"⟩),
  ("VT", ⟨"VT", 100000, some 200, "rolling_12"⟩),
  ("VA", ⟨"VA", 100000, some 200, "current_or_prior"⟩),
  ("WA", ⟨"WA", 100000, none, "current_or_prior"⟩),
  ("WV", ⟨"WV", 100000, some 200, "current_or_prior"⟩),
  ("WI", ⟨"WI", 100000, none, "current_year"⟩),
  ("WY", ⟨"WY", 100000, some 200, "current_or_prior"⟩),
  ("DC", ⟨"DC", 100000, some 200, "current_or_prior"⟩)]

/-- `_NO_NEXUS_STATES`: states with no statewide sales tax. -/
def noNexusStates : List String := ["DE", "MT", "NH", "OR"]

/-- `_FILING_DUE_DAY`: day of the month after period end on which the
return is due. -/
def filingDueDay : List (String × ℕ) := [
  ("default", 20),
  ("CA", 25),
  ("FL", 20),
  ("NY", 20),
  ("TX", 20),
  ("IL", 20),
  ("PA", 20),
  ("OH", 23),
  ("NJ", 20),
  ("WA", 25),
  ("GA", 20)]

/-- `_get_due_day`. -/
def getDueDay (state_code : String) : ℕ :=
  (filingDueDay.lookup state_code).getD 20

/-- `_compute_due_date`: the due day of the month after `period_end`,
wrapping December to January of the next year. -/
def computeDueDate (period_end : Date) (state_code : String) : Date :=
  let due_day := getDueDay state_code
  if period_end.month = 12 then ⟨period_end.year + 1, 1, due_day⟩
  else ⟨period_end.year, period_end.month + 1, due_day⟩

/-- `_determine_frequency`. -/
def determineFrequency (annual_liability : ℚ) : FilingFrequency :=
  if 4800 ≤ annual_liability then .MONTHLY
  else if 1200 ≤ annual_liability then .QUARTERLY
  else .ANNUAL

/-- The mutable state of a `ComplianceChecker` instance: registered
states and the filed-periods registry (state to set of period keys). -/
structure ComplianceChecker where
  registered_states : List String
  filed_periods : List (String × List String)

/-- `state_code in self._filed_periods and period_key in
self._filed_periods[state_code]`. -/
def isFiled (ck : ComplianceChecker) (state_code period_key : String) : Bool :=
  match ck.filed_periods.lookup state_code with
  | some keys => keys.contains period_key
  | none => false

/-- `ComplianceChecker.check_nexus`. -/
def checkNexus (state_code : String) (revenue : ℚ) (transaction_count : ℕ)
    (physical_presence : Bool) : NexusStatus :=
  let state_code := strUpper state_code
  if noNexusStates.contains state_code then
    ⟨state_code, false, [], revenue, transaction_count, 0, none, 0, none, false⟩
  else
    match nexusThresholds.lookup state_code with
    | none =>
      ⟨state_code, physical_presence, if physical_presence then [.PHYSICAL] else [],
        revenue, transaction_count, 0, none, 0, none, false⟩
    | some threshold =>
      let nexus_types : List NexusType :=
        if physical_presence then [.PHYSICAL] else []
      let rev_pct : ℚ :=
        if 0 < threshold.revenue_threshold then
          qmul (qdiv revenue threshold.revenue_threshold) 100
        else 0
      let txn_pct : Option ℚ :=
        match threshold.transaction_threshold with
        | some t => some (qmul (qdiv (transaction_count : ℚ) (t : ℚ)) 100)
        | none => none
      let economic_nexus :=
        decide (threshold.revenue_threshold ≤ revenue) ||
          (match threshold.transaction_threshold with
            | some t => decide (t ≤ transaction_count)
            | none => false)
      let nexus_types :=
        if economic_nexus then nexus_types ++ [.ECONOMIC] else nexus_types
      let has_nexus := decide (0 < nexus_types.length)
      let approaching :=
        decide ((80 : ℚ) ≤ rev_pct) ||
          (match txn_pct with
            | some p => decide ((80 : ℚ) ≤ p)
            | none => false)
      ⟨state_code, has_nexus, nexus_types, revenue, transaction_count,
        threshold.revenue_threshold, threshold.transaction_threshold,
        rev_pct, txn_pct, approaching && !has_nexus⟩

/-- One `FilingDeadline` entry of the `get_filing_deadlines` loops. -/
def mkDeadline (ck : ComplianceChecker) (state_code : String)
    (p_start p_end : Date) (freq : FilingFrequency) (liability : ℚ)
    (ref_date : Date) : FilingDeadline :=
  let due := computeDueDate p_end state_code
  let period_key := p_start.iso ++ "_" ++ p_end.iso
  let is_filed := isFiled ck state_code period_key
  let is_overdue := due.blt ref_date && !is_filed
  let days_until := due.daysDiff ref_date
  ⟨state_code, p_start, p_end, due, freq, is_overdue, days_until, liability,
    if is_filed then "filed" else if is_overdue then "overdue" else "pending"⟩

/-- `ComplianceChecker.get_filing_deadlines` (with `as_of` passed
explicitly for `date.today()`). -/
def getFilingDeadlines (ck : ComplianceChecker) (state_code : String) (year : ℤ)
    (frequency : Option FilingFrequency) (estimated_annual_liability : ℚ)
    (as_of : Date) : List FilingDeadline :=
  let ref_date := as_of
  let freq := frequency.getD (determineFrequency estimated_annual_liability)
  match freq with
  | .MONTHLY =>
    (List.range 12).map (fun i =>
      let month := i + 1
      let p_start : Date := ⟨year, month, 1⟩
      let p_end : Date :=
        if month = 12 then ⟨year, 12, 31⟩
        else Date.predDay ⟨year, month + 1, 1⟩
      mkDeadline ck state_code p_start p_end .MONTHLY
        (qdiv estimated_annual_liability 12) ref_date)
  | .QUARTERLY =>
    [(⟨year, 1, 1⟩, (⟨year, 3, 31⟩ : Date)), (⟨year, 4, 1⟩, ⟨year, 6, 30⟩),
      (⟨year, 7, 1⟩, ⟨year, 9, 30⟩), (⟨year, 10, 1⟩, ⟨year, 12, 31⟩)].map
      (fun p =>
        mkDeadline ck state_code p.1 p.2 .QUARTERLY
          (qdiv estimated_annual_liability 4) ref_date)
  | .SEMI_ANNUAL => []
  | .ANNUAL =>
    [mkDeadline ck state_code ⟨year, 1, 1⟩ ⟨year, 12, 31⟩ .ANNUAL
      estimated_annual_liability ref_date]

end TaxEngine


namespace TaxEngine

/-! ## Refund analyzer (`refund_analyzer.py`) -/

/-- A single identified overpayment (`OverpaymentRecord`). -/
structure OverpaymentRecord where
  transaction_id : String
  transaction_date : Date
  state : String
  city : Option String
  sale_amount : ℚ
  tax_paid : ℚ
  tax_owed : ℚ
  overpayment : ℚ
  reason : String
  refund_eligible : Bool
  statute_of_limitations_date : Option Date
deriving DecidableEq

/-- `_STATUTE_OF_LIMITATIONS`: refund-claim window in years. -/
def statuteOfLimitations : List (String × ℕ) := [
  ("default", 3),
  ("CA", 3),
  ("NY", 3),
  ("TX", 4),
  ("FL", 3),
  ("IL", 4),
  ("PA", 3),
  ("OH", 4),
  ("NJ", 4),
  ("WA", 4),
  ("GA", 3),
  ("NC", 3),
  ("VA", 3),
  ("MA", 3),
  ("MN", 3),
  ("CO", 3),
  ("SC", 3),
  ("AZ", 4),
  ("TN", 3),
  ("MO", 3)]

/-- `_ESTIMATED_RECOVERY_RATE`. -/
def estimatedRecoveryRate : ℚ := mkRat 85 100

/-- `_get_sol_years`: per-state lookup with default 3 (the query code
is used exactly as given, no case normalisation). -/
def getSolYears (state_code : String) : ℕ :=
  (statuteOfLimitations.lookup state_code).getD 3

/-- `RefundAnalyzer._check_statute_of_limitations` (with `as_of`
passed explicitly for `date.today()`). -/
def checkStatuteOfLimitations (txn_date : Date) (state_code : String)
    (as_of : Date) : Bool × Option Date :=
  let sol_years : ℤ := getSolYears state_code
  let cutoff := as_of.shiftYears (-sol_years)
  let sol_date := txn_date.shiftYears sol_years
  (cutoff.ble txn_date, some sol_date)

/-- `RefundAnalyzer.analyze_transaction`: `none` when no overpayment is
found. -/
def analyzeTransaction (db : TaxRateDatabase) (txn : Transaction) (tax_paid : ℚ)
    (as_of : Date) : Except String (Option OverpaymentRecord) :=
  match calculate db txn with
  | .error e => .error e
  | .ok result =>
    let tax_owed := result.tax_amount
    let overpayment := roundCent (qsub tax_paid tax_owed)
    if overpayment ≤ 0 then .ok none
    else
      let reason :=
        if result.is_exempt then
          "Exempt transaction taxed: " ++ result.exemption_reason
        else if tax_owed < tax_paid then
          if 0 < tax_owed then
            "Rate mismatch: paid " ++ fmtFixed (qmul (qdiv tax_paid txn.amount) 100) 4 ++
              "%, correct rate " ++ fmtFixed (qmul result.effective_rate 100) 4 ++ "%"
          else "Tax collected in no-tax jurisdiction"
        else "Overpayment detected"
      let es := checkStatuteOfLimitations txn.transaction_date txn.state as_of
      .ok (some ⟨txn.transaction_id, txn.transaction_date, txn.state, txn.city,
        txn.amount, tax_paid, tax_owed, overpayment, reason, es.1, es.2⟩)

end TaxEngine

namespace TaxEngine

/-! ## Arithmetic facts about the rounding helpers -/

theorem roundHalfUpInt_abs_le (x : ℚ) : |((roundHalfUpInt x : ℤ) : ℚ) - x| ≤ 1 / 2 := by
  rw [roundHalfUpInt]
  split
  · rename_i h
    rw [qadd_eq, q_mkRat]
    have h1 := Int.floor_le (x + (1 : ℚ) / 2)
    have h2 := Int.lt_floor_add_one (x + (1 : ℚ) / 2)
    rw [abs_le]
    constructor <;> push_cast at * <;> linarith
  · rename_i h
    rw [qadd_eq, q_mkRat]
    have h1 := Int.floor_le (-x + (1 : ℚ) / 2)
    have h2 := Int.lt_floor_add_one (-x + (1 : ℚ) / 2)
    rw [abs_le]
    constructor <;> push_cast at * <;> linarith

theorem roundHalfUpInt_intCast (n : ℤ) : roundHalfUpInt (n : ℚ) = n := by
  rw [roundHalfUpInt]
  have hhalf : ⌊(1 : ℚ) / 2⌋ = 0 := by norm_num [Int.floor_eq_iff]
  split
  · rw [qadd_eq, q_mkRat]
    push_cast
    rw [add_comm, Int.floor_add_int, hhalf]
    omega
  · rw [qadd_eq, q_mkRat]
    push_cast
    rw [← Int.cast_neg, add_comm, Int.floor_add_int, hhalf]
    omega

/-- `roundCent x` is an exact multiple of a cent. -/
theorem roundCent_centMul (x : ℚ) : roundCent x = ((roundHalfUpInt (qmul x 100) : ℤ) : ℚ) / 100 := by
  rw [roundCent, qdiv_eq]

/-- Quantizing never moves a value by more than half a cent. -/
theorem roundCent_abs_le (x : ℚ) : |roundCent x - x| ≤ 1 / 200 := by
  rw [roundCent_centMul]
  have h : |((roundHalfUpInt (qmul x 100) : ℤ) : ℚ) - x * 100| ≤ 1 / 2 := by
    rw [← qmul_eq x 100]
    exact roundHalfUpInt_abs_le (qmul x 100)
  rw [show ((roundHalfUpInt (qmul x 100) : ℤ) : ℚ) / 100 - x =
      (((roundHalfUpInt (qmul x 100) : ℤ) : ℚ) - x * 100) / 100 by ring]
  rw [abs_div]
  rw [abs_of_pos (by norm_num : (0 : ℚ) < 100)]
  rw [div_le_div_iff₀ (by norm_num) (by norm_num)]
  nlinarith [h]

/-- Quantizing a value that is already a multiple of a cent is the
identity. -/
theorem roundCent_of_centMul (n : ℤ) : roundCent ((n : ℚ) / 100) = (n : ℚ) / 100 := by
  rw [roundCent_centMul]
  have : qmul ((n : ℚ) / 100) 100 = (n : ℚ) := by
    rw [qmul_eq]
    field_simp
  rw [this, roundHalfUpInt_intCast]

end TaxEngine

namespace TaxEngine

/-! ## Structural facts about `calculate` -/

/-- `_resolve_exemption` cannot raise when the transaction state
resolves, because its only lookup is on the same state code. -/
theorem resolveExemption_isOk (db : TaxRateDatabase) (txn : Transaction) (s : StateRate)
    (hs : get_state db txn.state = some s) :
    ∃ p, resolveExemption db txn = .ok p := by
  rw [resolveExemption]
  split
  · exact ⟨_, rfl⟩
  · split
    · exact ⟨_, rfl⟩
    · split
      · rcases hc : categoryMap.lookup (strStrip (strLower (txn.item_category.getD ""))) with _ | cat
        · simp only [hc]
          exact ⟨_, rfl⟩
        · simp only [hc, is_exempt, hs]
          split
          · exact ⟨_, rfl⟩
          · exact ⟨_, rfl⟩
      · exact ⟨_, rfl⟩

/-- `calculate` never raises: every transaction yields a result. -/
theorem calculate_isOk (db : TaxRateDatabase) (txn : Transaction) :
    ∃ r, calculate db txn = .ok r := by
  rcases hg : get_state db txn.state with _ | s
  · rw [calculate, hg]
    exact ⟨_, rfl⟩
  · rw [calculate]
    simp only [hg]
    split
    · exact ⟨_, rfl⟩
    · obtain ⟨⟨isEx, reason⟩, hre⟩ := resolveExemption_isOk db txn s hg
      simp only [hre]
      split
      · exact ⟨_, rfl⟩
      · exact ⟨_, rfl⟩

/-- Every result of `calculate` satisfies the rounding invariant
`tax_amount = state_tax + local_tax` with both addends exact multiples
of a cent. -/
theorem calculate_sum_invariant (db : TaxRateDatabase) (txn : Transaction) (r : TaxResult)
    (h : calculate db txn = .ok r) :
    r.tax_amount = r.state_tax + r.local_tax ∧
      (∃ a : ℤ, r.state_tax = (a : ℚ) / 100) ∧ (∃ b : ℤ, r.local_tax = (b : ℚ) / 100) := by
  rw [calculate] at h
  rcases hg : get_state db txn.state with _ | s <;> simp only [hg] at h
  · obtain rfl : _ = r := (Except.ok.injEq _ _).mp h
    refine ⟨by norm_num, ⟨0, by norm_num⟩, ⟨0, by norm_num⟩⟩
  · split at h
    · obtain rfl : _ = r := (Except.ok.injEq _ _).mp h
      refine ⟨by norm_num, ⟨0, by norm_num⟩, ⟨0, by norm_num⟩⟩
    · rcases hre : resolveExemption db txn with e | p <;> simp only [hre] at h
      · exact absurd h (by simp)
      · obtain ⟨isEx, reason⟩ := p
        split at h
        · obtain rfl : _ = r := (Except.ok.injEq _ _).mp h
          refine ⟨by norm_num, ⟨0, by norm_num⟩, ⟨0, by norm_num⟩⟩
        · obtain rfl : _ = r := (Except.ok.injEq _ _).mp h
          rw [taxedResult]
          refine ⟨qadd_eq _ _, ⟨_, roundCent_centMul _⟩, ⟨_, roundCent_centMul _⟩⟩

end TaxEngine


namespace TaxEngine

/-- The spec scenario transaction: $500 tax-exclusive sale in Houston,
TX. -/
def txnHouston500 : Transaction :=
  ⟨"houston-500", ⟨2024, 6, 1⟩, 500, "TX", some "Houston", none, none, "retail", .TAX_EXCLUSIVE⟩

/-- The result `calculate` produces for `txnHouston500`. -/
def resHouston500 : TaxResult :=
  ⟨"houston-500", 500, mkRat 165 4, mkRat 825 10000, "TX", some "Houston",
    mkRat 125 4, 10, false, "", []⟩

/-- The TX entry of the rate table. -/
def txState : StateRate :=
  ⟨"TX", "Texas", mkRat 625 10000, true, mkRat 2 100, mkRat 820 10000,
    [.GROCERY, .PRESCRIPTION_DRUG, .MEDICAL_DEVICE],
    [⟨"Houston", "Harris", mkRat 2 100, "city"⟩,
      ⟨"Dallas", "Dallas", mkRat 2 100, "city"⟩,
      ⟨"Austin", "Travis", mkRat 2 100, "city"⟩,
      ⟨"San Antonio", "Bexar", mkRat 2 100, "city"⟩,
      ⟨"Fort Worth", "Tarrant", mkRat 2 100, "city"⟩]⟩

end TaxEngine

open TaxEngine in
/-- C1 as stated is false: `calculate_use_tax` re-rounds the net tax
(gross minus credit) into `tax_amount` but copies the gross
`state_tax` and `local_tax`, so at the spec's own use-tax scenario
($1000 to TX/Houston with $30 already paid) the total is 52.50 while
the state and local parts sum to 82.50. -/
theorem C1_counterexample :
    (calculate_use_tax theDB 1000 "TX" (some "Houston") 30 ⟨2024, 6, 1⟩).toOption.map
        (fun r => (r.tax_amount, r.state_tax, r.local_tax)) =
      some (mkRat 105 2, mkRat 125 2, 20) ∧
      (mkRat 105 2 : ℚ) ≠ mkRat 125 2 + 20 := by
  constructor
  · decide
  · rw [q_mkRat, q_mkRat]
    norm_num

open TaxEngine in
/-- C1 (amended): `total tax = state tax + local tax` holds for every
result of `calculate`; for `calculate_use_tax` it holds whenever no
credit is applied (`min(taxAlreadyPaid, taxOwed) = 0`), while with a
positive credit it can fail, as the counterexample shows. -/
theorem C1_amended_total_is_sum :
    (∀ (txn : Transaction) (r : TaxResult), calculate theDB txn = .ok r →
        r.tax_amount = r.state_tax + r.local_tax) ∧
      (∀ (amount : ℚ) (st : String) (city : Option String) (paid : ℚ) (today : Date)
          (g r : TaxResult),
        calculate theDB (useTaxTxn amount st city today) = .ok g →
        min paid g.tax_amount = 0 →
        calculate_use_tax theDB amount st city paid today = .ok r →
        r.tax_amount = r.state_tax + r.local_tax) := by
  constructor
  · exact fun txn r h => (calculate_sum_invariant theDB txn r h).1
  · intro amount st city paid today g r hg hmin hr
    rw [calculate_use_tax, hg] at hr
    obtain rfl : _ = r := (Except.ok.injEq _ _).mp hr
    obtain ⟨hsum, ⟨a, ha⟩, ⟨b, hb⟩⟩ := calculate_sum_invariant theDB _ g hg
    show roundCent (qsub g.tax_amount (min paid g.tax_amount)) = g.state_tax + g.local_tax
    rw [hmin, qsub_eq, sub_zero, hsum, ha, hb, div_add_div_same, ← Int.cast_add,
      roundCent_of_centMul, Int.cast_add]

open TaxEngine in
/-- Witness for C1 (amended): the invariant at the Houston scenario,
and at a use-tax call with no tax already paid. -/
theorem C1_amended_witness :
    (resHouston500.tax_amount = resHouston500.state_tax + resHouston500.local_tax) ∧
      ∃ r, calculate_use_tax theDB 1000 "TX" (some "Houston") 0 ⟨2024, 6, 1⟩ = .ok r ∧
        r.tax_amount = r.state_tax + r.local_tax := by
  constructor
  · exact C1_amended_total_is_sum.1 txnHouston500 resHouston500 (by decide)
  · refine ⟨⟨"use-tax-calc", 1000, mkRat 165 2, mkRat 825 10000, "TX", some "Houston",
      mkRat 125 2, 20, false, "", []⟩, by decide, ?_⟩
    exact C1_amended_total_is_sum.2 1000 "TX" (some "Houston") 0 ⟨2024, 6, 1⟩
      ⟨"use-tax-calc", 1000, mkRat 165 2, mkRat 825 10000, "TX", some "Houston",
        mkRat 125 2, 20, false, "", []⟩ _ (by decide) (by decide) (by decide)

open TaxEngine in
/-- C2: the strict rate-lookup operations (`get_base_rate`,
`is_exempt`, `get_combined_rate`) raise exactly when the code is not in
the rate table (case-insensitively), while `calculate` with an unknown
state code never raises: it returns a zero-tax, non-exempt result with
a warning naming the unknown code. -/
theorem C2_strict_raise_calculate_degrades :
    (∀ code : String,
        (∃ e, get_base_rate theDB code = .error e) ↔ get_state theDB code = none) ∧
      (∀ (code : String) (cat : ExemptionCategory),
        (∃ e, is_exempt theDB code cat = .error e) ↔ get_state theDB code = none) ∧
      (∀ (code : String) (city : Option String),
        (∃ e, get_combined_rate theDB code city = .error e) ↔ get_state theDB code = none) ∧
      (∀ txn : Transaction, get_state theDB txn.state = none →
        calculate theDB txn = .ok ⟨txn.transaction_id, txn.amount, 0, 0, txn.state, txn.city,
          0, 0, false, "", ["Unknown state code: " ++ txn.state]⟩) := by
  refine ⟨fun code => ?_, fun code cat => ?_, fun code city => ?_, fun txn h => ?_⟩
  · rcases hg : get_state theDB code with _ | s
    · simp [get_base_rate, hg]
    · simp [get_base_rate, hg]
  · rcases hg : get_state theDB code with _ | s
    · simp [is_exempt, hg]
    · simp [is_exempt, hg]
  · rcases hg : get_state theDB code with _ | s
    · simp [get_combined_rate, hg]
    · simp only [get_combined_rate, hg]
      refine iff_of_false ?_ (by simp)
      rintro ⟨e, he⟩
      split at he
      · split at he <;> exact absurd he (by simp)
      · exact absurd he (by simp)
  · rw [calculate, h]

namespace TaxEngine

/-- A transaction whose state code is unknown to the rate table. -/
def txnZZ : Transaction :=
  ⟨"zz-1", ⟨2024, 6, 1⟩, 100, "ZZ", none, none, none, "retail", .TAX_EXCLUSIVE⟩

end TaxEngine

open TaxEngine in
/-- Witness for C2: `get_base_rate` raises on `"ZZ"`, and `calculate`
degrades to the zero-tax warning result there. -/
theorem C2_witness :
    (∃ e, get_base_rate theDB "ZZ" = .error e) ∧
      calculate theDB txnZZ = .ok ⟨"zz-1", 100, 0, 0, "ZZ", none, 0, 0, false, "",
        ["Unknown state code: ZZ"]⟩ := by
  constructor
  · exact (C2_strict_raise_calculate_degrades.1 "ZZ").mpr (by decide)
  · have h := C2_strict_raise_calculate_degrades.2.2.2 txnZZ (by decide)
    exact h

namespace TaxEngine

/-- Reduction of `calculate` on the taxed path: known state, not the
no-tax shortcut, no exemption resolved. -/
theorem calculate_taxed (db : TaxRateDatabase) (txn : Transaction) (s : StateRate)
    (hs : get_state db txn.state = some s)
    (hns : ¬(s.base_rate = 0 ∧ s.has_local_taxes = false))
    (hex : resolveExemption db txn = .ok (false, "")) :
    calculate db txn = .ok (taxedResult db s txn) := by
  rw [calculate]
  simp only [hs]
  rw [if_neg hns]
  simp only [hex]
  rfl

end TaxEngine

open TaxEngine in
/-- C3: on the taxed path, the state and local taxes are rounded to the
cent independently from the taxable amount, and the total is their sum;
at the $500 Houston, TX scenario this gives 31.25, 10.00 and 41.25. -/
theorem C3_independent_rounding :
    (∀ (txn : Transaction) (s : StateRate),
        get_state theDB txn.state = some s →
        ¬(s.base_rate = 0 ∧ s.has_local_taxes = false) →
        resolveExemption theDB txn = .ok (false, "") →
        ∃ r, calculate theDB txn = .ok r ∧
          r.state_tax = roundCent (taxableFor theDB s txn * s.base_rate) ∧
          r.local_tax = roundCent (taxableFor theDB s txn * localRateFor theDB s txn) ∧
          r.tax_amount = r.state_tax + r.local_tax) ∧
      (calculate theDB txnHouston500 = .ok resHouston500 ∧
        resHouston500.state_tax = mkRat 3125 100 ∧
        resHouston500.local_tax = 10 ∧
        resHouston500.tax_amount = mkRat 4125 100) := by
  constructor
  · intro txn s hs hns hex
    refine ⟨taxedResult theDB s txn, calculate_taxed theDB txn s hs hns hex, ?_, ?_, ?_⟩
    · rw [← qmul_eq]
      rfl
    · rw [← qmul_eq]
      rfl
    · rw [← qadd_eq]
      rfl
  · exact ⟨by decide, by decide, by decide, by decide⟩

open TaxEngine in
/-- Witness for C3: the taxed-path equations instantiated at the $500
Houston, TX transaction. -/
theorem C3_witness :
    ∃ r, calculate theDB txnHouston500 = .ok r ∧
      r.state_tax = roundCent (taxableFor theDB txState txnHouston500 * txState.base_rate) ∧
      r.local_tax = roundCent (taxableFor theDB txState txnHouston500 *
        localRateFor theDB txState txnHouston500) ∧
      r.tax_amount = r.state_tax + r.local_tax :=
  C3_independent_rounding.1 txnHouston500 txState (by decide) (by decide) (by decide)

namespace TaxEngine

/-- A wholesale transaction that also carries an exemption certificate
and an exempt item category. -/
def txnWholesale : Transaction :=
  ⟨"w-1", ⟨2024, 6, 1⟩, 250, "TX", some "Houston", some "grocery", some "CERT-123",
    "wholesale", .TAX_EXCLUSIVE⟩

end TaxEngine

open TaxEngine in
/-- C4: a `wholesale` or `exempt` customer type makes the transaction
exempt with a reason citing the customer type, regardless of any
certificate or item category also present (first exemption rule wins),
whenever the state resolves and is not the no-tax shortcut. -/
theorem C4_customer_type_priority :
    ∀ (txn : Transaction) (s : StateRate),
      get_state theDB txn.state = some s →
      ¬(s.base_rate = 0 ∧ s.has_local_taxes = false) →
      (txn.customer_type = "wholesale" ∨ txn.customer_type = "exempt") →
      calculate theDB txn = .ok ⟨txn.transaction_id, txn.amount, 0, 0, txn.state, txn.city,
        0, 0, true, "Customer type: " ++ txn.customer_type, []⟩ := by
  intro txn s hs hns hct
  have hre : resolveExemption theDB txn =
      .ok (true, "Customer type: " ++ txn.customer_type) := by
    rw [resolveExemption, if_pos hct]
  rw [calculate]
  simp only [hs]
  rw [if_neg hns]
  simp only [hre]
  rfl

open TaxEngine in
/-- Witness for C4: a wholesale transaction in TX carrying both a
certificate and a grocery category is exempt via the customer type. -/
theorem C4_witness :
    calculate theDB txnWholesale = .ok ⟨"w-1", 250, 0, 0, "TX", some "Houston", 0, 0, true,
      "Customer type: wholesale", []⟩ :=
  C4_customer_type_priority txnWholesale txState (by decide) (by decide) (Or.inl rfl)

open TaxEngine in
/-- C5: for a state with a known threshold entry,
`approaching_threshold` holds exactly when one of the percentages
reaches 80% and nexus has not been triggered; in particular it is
always false once `has_nexus` is true. -/
theorem C5_approaching_threshold :
    ∀ (code : String) (revenue : ℚ) (cnt : ℕ) (phys : Bool) (th : NexusThreshold),
      noNexusStates.contains (strUpper code) = false →
      nexusThresholds.lookup (strUpper code) = some th →
      (((checkNexus code revenue cnt phys).approaching_threshold = true) ↔
        (((80 : ℚ) ≤ (checkNexus code revenue cnt phys).revenue_pct_of_threshold ∨
            ∃ p, (checkNexus code revenue cnt phys).transaction_pct_of_threshold = some p ∧
              (80 : ℚ) ≤ p) ∧
          (checkNexus code revenue cnt phys).has_nexus = false)) ∧
      ((checkNexus code revenue cnt phys).has_nexus = true →
        (checkNexus code revenue cnt phys).approaching_threshold = false) := by
  intro code revenue cnt phys th hno hth
  obtain ⟨tc, rthr, tthr, per⟩ := th
  rcases tthr with _ | t
  · simp only [checkNexus, hno, Bool.false_eq_true, if_false, hth]
    constructor
    · simp only [Bool.and_eq_true, Bool.not_eq_true', Bool.or_eq_true, decide_eq_true_eq]
      constructor
      · rintro ⟨ha, hh⟩
        rcases ha with ha | ha
        · exact ⟨Or.inl ha, hh⟩
        · simp at ha
      · rintro ⟨ha, hh⟩
        rcases ha with ha | ⟨p, hp, _⟩
        · exact ⟨Or.inl ha, hh⟩
        · simp at hp
    · intro hh
      simp only [hh, Bool.not_true, Bool.and_false]
  · simp only [checkNexus, hno, Bool.false_eq_true, if_false, hth]
    constructor
    · simp only [Bool.and_eq_true, Bool.not_eq_true', Bool.or_eq_true, decide_eq_true_eq,
        Option.some.injEq]
      constructor
      · rintro ⟨ha, hh⟩
        rcases ha with ha | ha
        · exact ⟨Or.inl ha, hh⟩
        · exact ⟨Or.inr ⟨_, rfl, ha⟩, hh⟩
      · rintro ⟨ha, hh⟩
        rcases ha with ha | ⟨p, hp, hp80⟩
        · exact ⟨Or.inl ha, hh⟩
        · subst hp
          exact ⟨Or.inr hp80, hh⟩
    · intro hh
      simp only [hh, Bool.not_true, Bool.and_false]

open TaxEngine in
/-- Witness for C5: TX at $600k revenue has nexus (120% of the $500k
threshold) yet `approaching_threshold` is false. -/
theorem C5_witness :
    (checkNexus "TX" 600000 0 false).approaching_threshold = false :=
  (C5_approaching_threshold "TX" 600000 0 false ⟨"TX", 500000, none, "rolling_12"⟩
    (by decide) (by decide)).2 (by decide)

open TaxEngine in
/-- C6: monthly filing deadlines are one per calendar month (12 in
all), each due on the state's fixed due day in the month following the
period end, December wrapping to January; TX 2024 has January period
end 2024-01-31 due 2024-02-20 and December due 2025-01-20. -/
theorem C6_monthly_deadlines :
    (∀ (ck : ComplianceChecker) (state : String) (year : ℤ) (liab : ℚ) (as_of : Date),
        (getFilingDeadlines ck state year (some .MONTHLY) liab as_of).length = 12 ∧
        (∀ i : ℕ, i < 12 →
          ((getFilingDeadlines ck state year (some .MONTHLY) liab as_of)[i]?).map
              (fun d => (d.period_start, d.period_end, d.due_date)) =
            some (⟨year, i + 1, 1⟩, ⟨year, i + 1, daysInMonth year (i + 1)⟩,
              if i + 1 = 12 then ⟨year + 1, 1, getDueDay state⟩
              else ⟨year, i + 2, getDueDay state⟩))) ∧
      ((getFilingDeadlines ⟨[], []⟩ "TX" 2024 (some .MONTHLY) 0 ⟨2025, 6, 1⟩).map
          (fun d => (d.period_end, d.due_date)))[0]? =
        some (⟨2024, 1, 31⟩, ⟨2024, 2, 20⟩) ∧
      ((getFilingDeadlines ⟨[], []⟩ "TX" 2024 (some .MONTHLY) 0 ⟨2025, 6, 1⟩).map
          (fun d => d.due_date)).getLast? = some ⟨2025, 1, 20⟩ := by
  refine ⟨fun ck state year liab as_of => ⟨?_, ?_⟩, by decide, by decide⟩
  · simp [getFilingDeadlines]
  · intro i hi
    simp only [getFilingDeadlines, Option.getD_some]
    rw [List.getElem?_map, List.getElem?_range hi]
    simp only [Option.map_some', mkDeadline, Option.some.injEq, Prod.mk.injEq]
    by_cases h12 : i + 1 = 12
    · have h11 : i = 11 := by omega
      subst h11
      norm_num [daysInMonth, computeDueDate]
    · rw [if_neg h12]
      have hpe : Date.predDay ⟨year, i + 1 + 1, 1⟩ = ⟨year, i + 1, daysInMonth year (i + 1)⟩ := by
        rw [Date.predDay]
        dsimp only
        rw [if_neg (by norm_num), if_pos (by omega)]
        rw [Nat.add_sub_cancel]
      refine ⟨trivial, hpe, ?_⟩
      rw [hpe, computeDueDate]

open TaxEngine in
/-- Witness for C6: the schedule length and the January entry for TX
monthly 2024. -/
theorem C6_witness :
    (getFilingDeadlines ⟨[], []⟩ "TX" 2024 (some .MONTHLY) 0 ⟨2025, 6, 1⟩).length = 12 ∧
      ((getFilingDeadlines ⟨[], []⟩ "TX" 2024 (some .MONTHLY) 0 ⟨2025, 6, 1⟩)[0]?).map
          (fun d => (d.period_start, d.period_end, d.due_date)) =
        some (⟨2024, 1, 1⟩, ⟨2024, 1, 31⟩, ⟨2024, 2, 20⟩) := by
  constructor
  · exact (C6_monthly_deadlines.1 ⟨[], []⟩ "TX" 2024 0 ⟨2025, 6, 1⟩).1
  · have h := (C6_monthly_deadlines.1 ⟨[], []⟩ "TX" 2024 0 ⟨2025, 6, 1⟩).2 0 (by norm_num)
    simpa using h

open TaxEngine in
/-- C7: every overpayment record is refund-eligible exactly when the
transaction date is on or after the as-of date moved back by the
state's statute-of-limitations years, and its expiry date is the
transaction date moved forward by the same number of years; the
per-state years default to 3 with overrides such as TX = 4 and
IL = 4. -/
theorem C7_statute_of_limitations :
    (∀ (txn : Transaction) (tax_paid : ℚ) (as_of : Date) (rec : OverpaymentRecord),
        analyzeTransaction theDB txn tax_paid as_of = .ok (some rec) →
        (rec.refund_eligible =
            Date.ble (as_of.shiftYears (-(getSolYears txn.state : ℤ))) txn.transaction_date) ∧
          rec.statute_of_limitations_date =
            some (txn.transaction_date.shiftYears (getSolYears txn.state))) ∧
      getSolYears "TX" = 4 ∧ getSolYears "IL" = 4 ∧ getSolYears "MT" = 3 := by
  refine ⟨?_, by decide, by decide, by decide⟩
  intro txn tax_paid as_of rec h
  rw [analyzeTransaction] at h
  rcases hc : calculate theDB txn with e | result
  · simp only [hc] at h
    exact absurd h (by simp)
  · simp only [hc] at h
    split at h
    · exact absurd h (by simp)
    · simp only [Except.ok.injEq, Option.some.injEq] at h
      subst h
      exact ⟨rfl, rfl⟩

namespace TaxEngine

/-- A 2021 Houston, TX transaction on which $100 of tax was paid. -/
def txnRefund : Transaction :=
  ⟨"r-1", ⟨2021, 6, 15⟩, 1000, "TX", some "Houston", none, none, "retail", .TAX_EXCLUSIVE⟩

/-- The overpayment record the analyzer produces for `txnRefund` with
`tax_paid = 100` as of 2024-07-01. -/
def recRefund : OverpaymentRecord :=
  ⟨"r-1", ⟨2021, 6, 15⟩, "TX", some "Houston", 1000, 100, mkRat 165 2, mkRat 35 2,
    "Rate mismatch: paid 10.0000%, correct rate 8.2500%", true, some ⟨2025, 6, 15⟩⟩

end TaxEngine

open TaxEngine in
/-- Witness for C7: the statute-of-limitations fields at the concrete
2021 TX overpayment. -/
theorem C7_witness :
    recRefund.refund_eligible =
        Date.ble ((⟨2024, 7, 1⟩ : Date).shiftYears (-(getSolYears "TX" : ℤ)))
          (⟨2021, 6, 15⟩ : Date) ∧
      recRefund.statute_of_limitations_date =
        some ((⟨2021, 6, 15⟩ : Date).shiftYears (getSolYears "TX")) :=
  C7_statute_of_limitations.1 txnRefund 100 ⟨2024, 7, 1⟩ recRefund (by decide)

open TaxEngine in
/-- C8 as stated is false: with a city that has no explicit local rate
entry ("El Paso", TX), `calculate` does use the average local portion
(local tax 1.95 on $100, i.e. `max(0.0820 - 0.0625, 0)`), but attaches
no warning: the warnings list is empty. -/
theorem C8_counterexample :
    (calculate theDB ⟨"ep-1", ⟨2024, 6, 1⟩, 100, "TX", some "El Paso", none, none, "retail",
        .TAX_EXCLUSIVE⟩).toOption.map (fun r => (r.warnings, r.local_tax, r.state_tax)) =
      some ([], mkRat 39 20, mkRat 25 4) := by decide

namespace TaxEngine

/-- Membership from a successful association-list lookup. -/
theorem mem_of_lookup_eq_some {α β : Type} [BEq α] [LawfulBEq α]
    {l : List (α × β)} {k : α} {b : β} (h : l.lookup k = some b) : (k, b) ∈ l := by
  obtain ⟨l₁, l₂, rfl, -⟩ := List.lookup_eq_some_iff.mp h
  simp

end TaxEngine

open TaxEngine in
/-- C8 (amended): on the taxed path, when a city is specified but has
no explicit local rate entry and the jurisdiction has local taxes, the
average local portion `max(avgCombinedRate - stateRate, 0)` is used
with NO warning; the average-local-rate warning is attached exactly
when no city is specified and the jurisdiction has local taxes. -/
theorem C8_amended_avg_rate_silent :
    ∀ (txn : Transaction) (s : StateRate),
      get_state theDB txn.state = some s →
      ¬(s.base_rate = 0 ∧ s.has_local_taxes = false) →
      resolveExemption theDB txn = .ok (false, "") →
      ∃ r, calculate theDB txn = .ok r ∧
        (truthy txn.city = true →
          get_local_rate theDB txn.state (txn.city.getD "") = none →
          s.has_local_taxes = true →
          localRateFor theDB s txn = max (s.avg_combined_rate - s.base_rate) 0 ∧
            r.warnings = []) ∧
        (truthy txn.city = false → s.has_local_taxes = true →
          r.warnings = ["No city specified for " ++ txn.state ++ "; used average local rate"]) := by
  intro txn s hs hns hex
  refine ⟨taxedResult theDB s txn, calculate_taxed theDB txn s hs hns hex, ?_, ?_⟩
  · intro hcity hlocal hlt
    constructor
    · rw [localRateFor, if_pos hcity]
      simp only [hlocal]
      rw [if_pos hlt, qsub_eq]
    · simp only [taxedResult]
      rw [hcity]
      simp
  · intro hcity hlt
    simp only [taxedResult]
    rw [hcity, hlt]
    simp

open TaxEngine in
/-- Witness for C8 (amended): the silent average-rate path at the
"El Paso", TX transaction. -/
theorem C8_witness :
    ∃ r, calculate theDB ⟨"ep-1", ⟨2024, 6, 1⟩, 100, "TX", some "El Paso", none, none,
        "retail", .TAX_EXCLUSIVE⟩ = .ok r ∧
      (truthy (some "El Paso") = true →
        get_local_rate theDB "TX" "El Paso" = none →
        txState.has_local_taxes = true →
        localRateFor theDB txState ⟨"ep-1", ⟨2024, 6, 1⟩, 100, "TX", some "El Paso", none, none,
            "retail", .TAX_EXCLUSIVE⟩ = max (txState.avg_combined_rate - txState.base_rate) 0 ∧
          r.warnings = []) ∧
      (truthy (some "El Paso") = false → txState.has_local_taxes = true →
        r.warnings = ["No city specified for TX; used average local rate"]) :=
  C8_amended_avg_rate_silent
    ⟨"ep-1", ⟨2024, 6, 1⟩, 100, "TX", some "El Paso", none, none, "retail", .TAX_EXCLUSIVE⟩
    txState (by decide) (by decide) (by decide)

namespace TaxEngine

/-- Sanity bounds on one state profile: nonnegative base rate and every
resolvable local rate keeping the combined rate below 100%. -/
def stateRatesOK (s : StateRate) : Bool :=
  decide (0 ≤ s.base_rate) &&
    decide (qadd s.base_rate (max (qsub s.avg_combined_rate s.base_rate) 0) < 1) &&
    s.local_rates.all (fun l => decide (0 ≤ l.rate) && decide (qadd s.base_rate l.rate < 1))

/-- Every state in the shipped table satisfies the rate bounds. -/
theorem stateData_rates_ok : stateData.all (fun p => stateRatesOK p.2) = true := by decide

end TaxEngine

namespace TaxEngine

/-- Bounds on the resolved rates of any transaction in a known
jurisdiction: nonnegative base and local rates with combined rate
below 100%. -/
theorem localRate_bounds (txn : Transaction) (s : StateRate)
    (hs : get_state theDB txn.state = some s) :
    0 ≤ s.base_rate ∧ 0 ≤ localRateFor theDB s txn ∧
      s.base_rate + localRateFor theDB s txn < 1 := by
  have hmem : (strUpper txn.state, s) ∈ stateData := by
    rw [get_state] at hs
    exact mem_of_lookup_eq_some hs
  have hok : stateRatesOK s = true := List.all_eq_true.mp stateData_rates_ok _ hmem
  rw [stateRatesOK, Bool.and_eq_true, Bool.and_eq_true, decide_eq_true_eq,
    decide_eq_true_eq] at hok
  obtain ⟨⟨hb0, hbavg⟩, hlocs⟩ := hok
  rw [qadd_eq, qsub_eq] at hbavg
  have hmax0 : (0 : ℚ) ≤ max (s.avg_combined_rate - s.base_rate) 0 := le_max_right _ _
  rw [localRateFor]
  split
  · rcases hloc : get_local_rate theDB txn.state (txn.city.getD "") with _ | l
    · simp only [hloc]
      split
      · exact ⟨hb0, by rw [qsub_eq]; exact hmax0, by rw [qsub_eq]; exact hbavg⟩
      · exact ⟨hb0, le_refl 0, by linarith⟩
    · simp only [hloc]
      have hmem2 : l ∈ s.local_rates := by
        rw [get_local_rate, hs] at hloc
        exact List.mem_of_find?_eq_some hloc
      have hl := List.all_eq_true.mp hlocs _ hmem2
      rw [Bool.and_eq_true, decide_eq_true_eq, decide_eq_true_eq] at hl
      obtain ⟨hl0, hl1⟩ := hl
      rw [qadd_eq] at hl1
      exact ⟨hb0, hl0, hl1⟩
  · split
    · exact ⟨hb0, by rw [qsub_eq]; exact hmax0, by rw [qsub_eq]; exact hbavg⟩
    · exact ⟨hb0, le_refl 0, by linarith⟩

/-- Backing a value out by `1 + cr` and re-applying the rate after
cent-rounding moves it by at most a cent, for any rate below 100%. -/
theorem roundCent_backout (a cr : ℚ) (h0 : 0 ≤ cr) (h1 : cr < 1) :
    |roundCent (a / (1 + cr)) * (1 + cr) - a| ≤ 1 / 100 := by
  have hpos : (0 : ℚ) < 1 + cr := by linarith
  have hne : (1 + cr : ℚ) ≠ 0 := ne_of_gt hpos
  have h := roundCent_abs_le (a / (1 + cr))
  have hfact : roundCent (a / (1 + cr)) * (1 + cr) - a =
      (roundCent (a / (1 + cr)) - a / (1 + cr)) * (1 + cr) := by
    rw [sub_mul, div_mul_cancel₀ _ hne]
  rw [hfact, abs_mul, abs_of_pos hpos]
  calc |roundCent (a / (1 + cr)) - a / (1 + cr)| * (1 + cr) ≤ (1 / 200) * (1 + cr) :=
        mul_le_mul_of_nonneg_right h (le_of_lt hpos)
    _ ≤ (1 / 200) * 2 := by nlinarith
    _ = 1 / 100 := by norm_num

end TaxEngine

open TaxEngine in
/-- C9: on the taxed path, tax-inclusive pricing backs the taxable
amount out as `roundCent(amount / (1 + stateRate + localRate))`, and
re-applying the combined rate recovers the original amount to within
one cent; tax-exclusive pricing leaves the amount unchanged. -/
theorem C9_inclusive_back_out :
    ∀ (txn : Transaction) (s : StateRate),
      get_state theDB txn.state = some s →
      ¬(s.base_rate = 0 ∧ s.has_local_taxes = false) →
      resolveExemption theDB txn = .ok (false, "") →
      ∃ r, calculate theDB txn = .ok r ∧
        (txn.pricing_model = .TAX_INCLUSIVE →
          r.taxable_amount =
              roundCent (txn.amount / (1 + (s.base_rate + localRateFor theDB s txn))) ∧
            |r.taxable_amount * (1 + (s.base_rate + localRateFor theDB s txn)) - txn.amount| ≤
              1 / 100) ∧
        (txn.pricing_model = .TAX_EXCLUSIVE → r.taxable_amount = txn.amount) := by
  intro txn s hs hns hex
  refine ⟨taxedResult theDB s txn, calculate_taxed theDB txn s hs hns hex, ?_, ?_⟩
  · intro hinc
    obtain ⟨hb0, hl0, hlt1⟩ := localRate_bounds txn s hs
    have htx : (taxedResult theDB s txn).taxable_amount =
        roundCent (txn.amount / (1 + (s.base_rate + localRateFor theDB s txn))) := by
      show taxableFor theDB s txn = _
      rw [taxableFor, if_pos hinc, qdiv_eq, qadd_eq, qadd_eq]
    refine ⟨htx, ?_⟩
    rw [htx]
    exact roundCent_backout txn.amount (s.base_rate + localRateFor theDB s txn)
      (add_nonneg hb0 hl0) hlt1
  · intro hexc
    show taxableFor theDB s txn = txn.amount
    rw [taxableFor, if_neg (by simp [hexc])]

open TaxEngine in
/-- Witness for C9: the back-out equations at a $1000 tax-inclusive
Houston, TX transaction. -/
theorem C9_witness :
    ∃ r, calculate theDB ⟨"inc-1", ⟨2024, 6, 1⟩, 1000, "TX", some "Houston", none, none,
        "retail", .TAX_INCLUSIVE⟩ = .ok r ∧
      ((⟨"inc-1", ⟨2024, 6, 1⟩, 1000, "TX", some "Houston", none, none, "retail",
          .TAX_INCLUSIVE⟩ : Transaction).pricing_model = .TAX_INCLUSIVE →
        r.taxable_amount = roundCent ((1000 : ℚ) / (1 + (txState.base_rate +
            localRateFor theDB txState ⟨"inc-1", ⟨2024, 6, 1⟩, 1000, "TX", some "Houston",
              none, none, "retail", .TAX_INCLUSIVE⟩))) ∧
          |r.taxable_amount * (1 + (txState.base_rate +
              localRateFor theDB txState ⟨"inc-1", ⟨2024, 6, 1⟩, 1000, "TX", some "Houston",
                none, none, "retail", .TAX_INCLUSIVE⟩)) - 1000| ≤ 1 / 100) ∧
      ((⟨"inc-1", ⟨2024, 6, 1⟩, 1000, "TX", some "Houston", none, none, "retail",
          .TAX_INCLUSIVE⟩ : Transaction).pricing_model = .TAX_EXCLUSIVE →
        r.taxable_amount = 1000) :=
  C9_inclusive_back_out
    ⟨"inc-1", ⟨2024, 6, 1⟩, 1000, "TX", some "Houston", none, none, "retail", .TAX_INCLUSIVE⟩
    txState (by decide) (by decide) (by decide)

namespace TaxEngine

/-! ## The default-context decimal trap (`decimal.InvalidOperation`)

Python runs `_round_tax` under the default decimal context: precision
28 with `InvalidOperation` trapped, so `quantize(Decimal("0.01"))`
raises when the quantized coefficient needs more than 28 significant
digits, i.e. when the rounded value in cents reaches `10 ^ 28` in
absolute value.  The definitions below replay the calculator with this
raising behaviour; the error payload stands for the raised
`decimal.InvalidOperation`. -/

/-- `_round_tax` under the default decimal context: the quantize raises
`InvalidOperation` when the rounded coefficient in cents has more than
28 digits. -/
def roundCentChecked (x : ℚ) : Except String ℚ :=
  if (roundHalfUpInt (qmul x 100)).natAbs < 10 ^ 28 then .ok (roundCent x)
  else .error "InvalidOperation"

/-- Taxable-amount resolution (`calculate` lines 229-234) with the
context trap of the tax-inclusive back-out's quantize. -/
def taxableForChecked (db : TaxRateDatabase) (state : StateRate) (txn : Transaction) :
    Except String ℚ :=
  let combined_rate := qadd state.base_rate (localRateFor db state txn)
  if txn.pricing_model = .TAX_INCLUSIVE then
    roundCentChecked (qdiv txn.amount (qadd 1 combined_rate))
  else .ok txn.amount

/-- The taxed branch of `calculate` (lines 211-256) with the context
trap of each `_round_tax` call, in source order: taxable back-out,
state tax, local tax. -/
def taxedResultChecked (db : TaxRateDatabase) (state : StateRate) (txn : Transaction) :
    Except String TaxResult :=
  let state_rate := state.base_rate
  let local_rate := localRateFor db state txn
  let combined_rate := qadd state_rate local_rate
  match taxableForChecked db state txn with
  | .error e => .error e
  | .ok taxable =>
    match roundCentChecked (qmul taxable state_rate) with
    | .error e => .error e
    | .ok state_tax =>
      match roundCentChecked (qmul taxable local_rate) with
      | .error e => .error e
      | .ok local_tax_amt =>
        .ok ⟨txn.transaction_id, taxable, qadd state_tax local_tax_amt, combined_rate,
          txn.state, txn.city, state_tax, local_tax_amt, false, "",
          if !truthy txn.city && state.has_local_taxes then
            ["No city specified for " ++ txn.state ++ "; used average local rate"]
          else []⟩

/-- `TaxCalculator.calculate` with the decimal-context trap: identical
to `calculate` except that each cent-quantization may raise. -/
def calculateChecked (db : TaxRateDatabase) (txn : Transaction) : Except String TaxResult :=
  match get_state db txn.state with
  | none =>
    .ok ⟨txn.transaction_id, txn.amount, 0, 0, txn.state, txn.city, 0, 0, false, "",
      ["Unknown state code: " ++ txn.state]⟩
  | some state =>
    if state.base_rate = 0 ∧ state.has_local_taxes = false then
      .ok ⟨txn.transaction_id, txn.amount, 0, 0, txn.state, txn.city, 0, 0, true,
        state.state_name ++ " has no sales tax", []⟩
    else
      match resolveExemption db txn with
      | .error e => .error e
      | .ok (isEx, reason) =>
        if isEx then
          .ok ⟨txn.transaction_id, txn.amount, 0, 0, txn.state, txn.city, 0, 0, true, reason, []⟩
        else taxedResultChecked db state txn

/-- One iteration of the `calculate_batch` loop over the checked
calculator: a raised `InvalidOperation` is caught and recorded by
transaction id. -/
def batchStepChecked (db : TaxRateDatabase) (acc : BatchAcc) (txn : Transaction) : BatchAcc :=
  match calculateChecked db txn with
  | .ok result =>
    { results := acc.results ++ [result]
      errors := acc.errors
      total_taxable := qadd acc.total_taxable result.taxable_amount
      total_tax := qadd acc.total_tax result.tax_amount
      total_exempt :=
        if result.is_exempt then qadd acc.total_exempt result.taxable_amount
        else acc.total_exempt
      exempt_count := if result.is_exempt then acc.exempt_count + 1 else acc.exempt_count
      state_tax_totals := dictAdd acc.state_tax_totals txn.state result.tax_amount }
  | .error e =>
    { acc with errors := acc.errors ++ ["Transaction " ++ txn.transaction_id ++ ": " ++ e] }

/-- `TaxCalculator.calculate_batch` over the checked calculator. -/
def calculate_batch_checked (db : TaxRateDatabase) (transactions : List Transaction) :
    BatchResult :=
  let acc := transactions.foldl (batchStepChecked db) ⟨[], [], 0, 0, 0, 0, []⟩
  ⟨acc.results, acc.total_taxable, acc.total_tax, acc.total_exempt,
    transactions.length, acc.exempt_count, acc.state_tax_totals, acc.errors⟩

/-- A `Decimal("1e30")` tax-exclusive transaction in TX, whose state
tax quantize overflows the 28-digit context. -/
def txnHuge : Transaction :=
  ⟨"huge-1", ⟨2024, 6, 1⟩, 1000000000000000000000000000000, "TX", none, none, none,
    "retail", .TAX_EXCLUSIVE⟩

end TaxEngine

open TaxEngine in
/-- C10 as stated is false of the source: at `amount = Decimal("1e30")`
in TX the state-tax quantize needs 31 significant digits and raises
`decimal.InvalidOperation` under the default 28-digit context, so
`calculate` raises and the batch records the error: the errors list of
a batch containing that transaction is not empty. -/
theorem C10_counterexample :
    calculateChecked theDB txnHuge = .error "InvalidOperation" ∧
      (calculate_batch_checked theDB [txnHuge]).errors =
        ["Transaction huge-1: InvalidOperation"] := by
  decide

namespace TaxEngine

/-- The quantized coefficient stays within the 28-digit context for
inputs up to a little over `10 ^ 25` dollars. -/
theorem roundCentChecked_ok (x : ℚ) (hx : |x| ≤ 10 ^ 25 + 1) :
    roundCentChecked x = .ok (roundCent x) := by
  rw [roundCentChecked, if_pos]
  have h := roundHalfUpInt_abs_le (qmul x 100)
  have hq : |qmul x 100| = |x| * 100 := by
    rw [qmul_eq, abs_mul]
    norm_num
  have habs : |((roundHalfUpInt (qmul x 100) : ℤ) : ℚ)| ≤ |x| * 100 + 1 / 2 := by
    have ht := abs_sub_abs_le_abs_sub ((roundHalfUpInt (qmul x 100) : ℤ) : ℚ) (qmul x 100)
    linarith [hq.le, hq.ge]
  have hmul : |x| * 100 ≤ (10 ^ 25 + 1) * 100 :=
    mul_le_mul_of_nonneg_right hx (by norm_num)
  have hlt : |((roundHalfUpInt (qmul x 100) : ℤ) : ℚ)| < ((10 ^ 28 : ℕ) : ℚ) := by
    push_cast
    nlinarith
  have hz : |(roundHalfUpInt (qmul x 100) : ℤ)| < ((10 ^ 28 : ℕ) : ℤ) := by
    exact_mod_cast hlt
  rw [Int.abs_eq_natAbs] at hz
  exact_mod_cast hz

/-- Cent-rounding grows the absolute value by at most half a cent. -/
theorem abs_roundCent_le (y : ℚ) : |roundCent y| ≤ |y| + 1 / 200 := by
  have h := roundCent_abs_le y
  have ht := abs_sub_abs_le_abs_sub (roundCent y) y
  linarith

/-- On the taxed path, the checked calculator agrees with the value
model whenever the transaction amount is at most `10 ^ 25` in absolute
value: no quantize overflows the 28-digit context. -/
theorem taxedResultChecked_ok (txn : Transaction) (s : StateRate)
    (hs : get_state theDB txn.state = some s)
    (hA : |txn.amount| ≤ 10 ^ 25) :
    taxedResultChecked theDB s txn = .ok (taxedResult theDB s txn) := by
  obtain ⟨hb0, hl0, hcr1⟩ := localRate_bounds txn s hs
  have hsr1 : s.base_rate < 1 := by linarith
  have hlr1 : localRateFor theDB s txn < 1 := by linarith
  have hdiv : |txn.amount| / |1 + (s.base_rate + localRateFor theDB s txn)| ≤ |txn.amount| := by
    apply div_le_self (abs_nonneg txn.amount)
    rw [abs_of_pos (by linarith)]
    linarith
  have htaxable : taxableForChecked theDB s txn = .ok (taxableFor theDB s txn) := by
    rw [taxableForChecked, taxableFor]
    split
    · apply roundCentChecked_ok
      rw [qdiv_eq, qadd_eq, qadd_eq, abs_div]
      linarith
    · rfl
  have htb : |taxableFor theDB s txn| ≤ 10 ^ 25 + 1 := by
    rw [taxableFor]
    split
    · refine le_trans (abs_roundCent_le _) ?_
      rw [qdiv_eq, qadd_eq, qadd_eq, abs_div]
      linarith
    · linarith
  have h1 : roundCentChecked (qmul (taxableFor theDB s txn) s.base_rate) =
      .ok (roundCent (qmul (taxableFor theDB s txn) s.base_rate)) := by
    apply roundCentChecked_ok
    rw [qmul_eq, abs_mul, abs_of_nonneg hb0]
    have := mul_le_of_le_one_right (abs_nonneg (taxableFor theDB s txn)) (le_of_lt hsr1)
    linarith
  have h2 : roundCentChecked (qmul (taxableFor theDB s txn) (localRateFor theDB s txn)) =
      .ok (roundCent (qmul (taxableFor theDB s txn) (localRateFor theDB s txn))) := by
    apply roundCentChecked_ok
    rw [qmul_eq, abs_mul, abs_of_nonneg hl0]
    have := mul_le_of_le_one_right (abs_nonneg (taxableFor theDB s txn)) (le_of_lt hlr1)
    linarith
  rw [taxedResultChecked]
  simp only [htaxable, h1, h2]
  rfl

/-- Within the amount bound, the checked calculator never raises and
returns exactly what the value model returns. -/
theorem calculateChecked_ok (txn : Transaction) (hA : |txn.amount| ≤ 10 ^ 25) :
    ∃ r, calculateChecked theDB txn = .ok r ∧ calculate theDB txn = .ok r := by
  rcases hg : get_state theDB txn.state with _ | s
  · exact ⟨_, by rw [calculateChecked, hg], by rw [calculate, hg]⟩
  · by_cases hns : s.base_rate = 0 ∧ s.has_local_taxes = false
    · refine ⟨⟨txn.transaction_id, txn.amount, 0, 0, txn.state, txn.city, 0, 0, true,
        s.state_name ++ " has no sales tax", []⟩, ?_, ?_⟩
      · rw [calculateChecked]
        simp only [hg]
        rw [if_pos hns]
      · rw [calculate]
        simp only [hg]
        rw [if_pos hns]
    · obtain ⟨⟨isEx, reason⟩, hre⟩ := resolveExemption_isOk theDB txn s hg
      cases isEx
      · refine ⟨taxedResult theDB s txn, ?_, ?_⟩
        · rw [calculateChecked]
          simp only [hg]
          rw [if_neg hns]
          simp only [hre]
          rw [if_neg (by simp)]
          exact taxedResultChecked_ok txn s hg hA
        · rw [calculate]
          simp only [hg]
          rw [if_neg hns]
          simp only [hre]
          rw [if_neg (by simp)]
      · refine ⟨⟨txn.transaction_id, txn.amount, 0, 0, txn.state, txn.city, 0, 0, true,
          reason, []⟩, ?_, ?_⟩
        · rw [calculateChecked]
          simp only [hg]
          rw [if_neg hns]
          simp only [hre]
          rw [if_pos trivial]
        · rw [calculate]
          simp only [hg]
          rw [if_neg hns]
          simp only [hre]
          rw [if_pos trivial]

/-- The checked batch loop never extends the error list when every
`calculateChecked` call succeeds. -/
theorem batch_checked_foldl_errors (txns : List Transaction)
    (h : ∀ t ∈ txns, ∃ r, calculateChecked theDB t = .ok r) (acc : BatchAcc) :
    (txns.foldl (batchStepChecked theDB) acc).errors = acc.errors := by
  induction txns generalizing acc with
  | nil => rfl
  | cons t ts ih =>
    rw [List.foldl_cons, ih (fun x hx => h x (List.mem_cons_of_mem _ hx))]
    obtain ⟨r, hr⟩ := h t (List.mem_cons_self _ _)
    rw [batchStepChecked, hr]

end TaxEngine

open TaxEngine in
/-- C10 (amended): `calculate` returns a `TaxResult` without raising
for every transaction whose amount keeps each cent-quantization within
the default 28-digit decimal context — in particular whenever the
amount is at most `10 ^ 25` dollars in absolute value — and it then
agrees with the exact-decimal value model; consequently
`calculate_batch` over any list of such transactions returns an empty
`errors` list.  Beyond that context, `quantize` raises
`decimal.InvalidOperation`, which `calculate` propagates and the batch
records (see the counterexample). -/
theorem C10_amended_in_context_total :
    (∀ txn : Transaction, |txn.amount| ≤ 10000000000000000000000000 →
        ∃ r, calculateChecked theDB txn = .ok r ∧ calculate theDB txn = .ok r) ∧
      (∀ txns : List Transaction, (∀ t ∈ txns, |t.amount| ≤ 10000000000000000000000000) →
        (calculate_batch_checked theDB txns).errors = []) := by
  have hlit : (10000000000000000000000000 : ℚ) = 10 ^ 25 := by norm_num
  constructor
  · intro txn h
    exact calculateChecked_ok txn (by rw [← hlit]; exact h)
  · intro txns h
    rw [calculate_batch_checked]
    refine batch_checked_foldl_errors txns (fun t ht => ?_) ⟨[], [], 0, 0, 0, 0, []⟩
    obtain ⟨r, hr, -⟩ := calculateChecked_ok t (by rw [← hlit]; exact h t ht)
    exact ⟨r, hr⟩

open TaxEngine in
/-- Witness for C10 (amended): the checked calculator succeeds on the
$500 Houston, TX transaction and agrees with the value model. -/
theorem C10_witness :
    ∃ r, calculateChecked theDB txnHouston500 = .ok r ∧
      calculate theDB txnHouston500 = .ok r :=
  C10_amended_in_context_total.1 txnHouston500 (by decide)
